import Mathlib

/-!
Verification of the Mindwtr persistence and synchronization layer
(`src/apps/desktop/src-tauri/src/lib.rs`).

The development is a shallow embedding of the storage core:

* JSON documents (`serde_json::Value`) are modelled by the inductive `Json`.
  Objects are association lists in construction order; `serde_json` maps
  compare by key, which is mirrored by `Json.canon` (fields sorted by key,
  later duplicate keys winning, as for `BTreeMap` insertion).
* SQLite tables are modelled by lists of row structures; a `TEXT` column that
  holds serialized JSON (tags, contexts, recurrence, checklist, attachments,
  tagIds, settings) is modelled by the parsed `Json` value, treating the
  `serde_json` `to_string`/`from_str` round trip as the identity.
* The FTS5 triggers of `SQLITE_SCHEMA` are modelled by keeping `tasks_fts` /
  `projects_fts` rows in the database state: every base-table insert appends
  the corresponding index row, and a base-table delete removes the index rows
  carrying the deleted row's id.
* `rusqlite` transactions are modelled by running the body as an `Except`
  computation and restoring the pre-call state on error (drop = rollback).
* Filesystem reads, JSON text parsing and sleeping are modelled by oracles:
  a read attempt is a function from the attempt index to the parse outcome,
  and the backoff schedule is a pure function of the attempt index (exposed
  over an entropy oracle which, like the code, it never consults).
-/

namespace Mindwtr

/-- JSON values (`serde_json::Value`), with numbers restricted to the integers
that occur in this storage layer. -/
inductive Json where
  | null : Json
  | bool : Bool → Json
  | num : Int → Json
  | str : String → Json
  | arr : List Json → Json
  | obj : List (String × Json) → Json

namespace Json

mutual

/-- Decidable equality of JSON values. -/
def decEq : (a b : Json) → Decidable (a = b)
  | .null, .null => .isTrue rfl
  | .null, .bool _ => .isFalse (fun h => Json.noConfusion h)
  | .null, .num _ => .isFalse (fun h => Json.noConfusion h)
  | .null, .str _ => .isFalse (fun h => Json.noConfusion h)
  | .null, .arr _ => .isFalse (fun h => Json.noConfusion h)
  | .null, .obj _ => .isFalse (fun h => Json.noConfusion h)
  | .bool _, .null => .isFalse (fun h => Json.noConfusion h)
  | .bool a, .bool b =>
    if h : a = b then .isTrue (by rw [h])
    else .isFalse (fun hh => absurd (by injection hh) h)
  | .bool _, .num _ => .isFalse (fun h => Json.noConfusion h)
  | .bool _, .str _ => .isFalse (fun h => Json.noConfusion h)
  | .bool _, .arr _ => .isFalse (fun h => Json.noConfusion h)
  | .bool _, .obj _ => .isFalse (fun h => Json.noConfusion h)
  | .num _, .null => .isFalse (fun h => Json.noConfusion h)
  | .num _, .bool _ => .isFalse (fun h => Json.noConfusion h)
  | .num a, .num b =>
    if h : a = b then .isTrue (by rw [h])
    else .isFalse (fun hh => absurd (by injection hh) h)
  | .num _, .str _ => .isFalse (fun h => Json.noConfusion h)
  | .num _, .arr _ => .isFalse (fun h => Json.noConfusion h)
  | .num _, .obj _ => .isFalse (fun h => Json.noConfusion h)
  | .str _, .null => .isFalse (fun h => Json.noConfusion h)
  | .str _, .bool _ => .isFalse (fun h => Json.noConfusion h)
  | .str _, .num _ => .isFalse (fun h => Json.noConfusion h)
  | .str a, .str b =>
    if h : a = b then .isTrue (by rw [h])
    else .isFalse (fun hh => absurd (by injection hh) h)
  | .str _, .arr _ => .isFalse (fun h => Json.noConfusion h)
  | .str _, .obj _ => .isFalse (fun h => Json.noConfusion h)
  | .arr _, .null => .isFalse (fun h => Json.noConfusion h)
  | .arr _, .bool _ => .isFalse (fun h => Json.noConfusion h)
  | .arr _, .num _ => .isFalse (fun h => Json.noConfusion h)
  | .arr _, .str _ => .isFalse (fun h => Json.noConfusion h)
  | .arr xs, .arr ys =>
    match decEqList xs ys with
    | .isTrue h => .isTrue (by rw [h])
    | .isFalse h => .isFalse (fun hh => by cases hh; exact h rfl)
  | .arr _, .obj _ => .isFalse (fun h => Json.noConfusion h)
  | .obj _, .null => .isFalse (fun h => Json.noConfusion h)
  | .obj _, .bool _ => .isFalse (fun h => Json.noConfusion h)
  | .obj _, .num _ => .isFalse (fun h => Json.noConfusion h)
  | .obj _, .str _ => .isFalse (fun h => Json.noConfusion h)
  | .obj _, .arr _ => .isFalse (fun h => Json.noConfusion h)
  | .obj xs, .obj ys =>
    match decEqFields xs ys with
    | .isTrue h => .isTrue (by rw [h])
    | .isFalse h => .isFalse (fun hh => by cases hh; exact h rfl)

/-- Decidable equality of lists of JSON values. -/
def decEqList : (xs ys : List Json) → Decidable (xs = ys)
  | [], [] => .isTrue rfl
  | [], _ :: _ => .isFalse (fun h => List.noConfusion h)
  | _ :: _, [] => .isFalse (fun h => List.noConfusion h)
  | x :: xs, y :: ys =>
    match decEq x y with
    | .isFalse h => .isFalse (fun hh => by cases hh; exact h rfl)
    | .isTrue h1 =>
      match decEqList xs ys with
      | .isTrue h2 => .isTrue (by rw [h1, h2])
      | .isFalse h => .isFalse (fun hh => by cases hh; exact h rfl)

/-- Decidable equality of JSON association lists. -/
def decEqFields : (xs ys : List (String × Json)) → Decidable (xs = ys)
  | [], [] => .isTrue rfl
  | [], _ :: _ => .isFalse (fun h => List.noConfusion h)
  | _ :: _, [] => .isFalse (fun h => List.noConfusion h)
  | (k1, v1) :: xs, (k2, v2) :: ys =>
    if hk : k1 = k2 then
      match decEq v1 v2 with
      | .isFalse h => .isFalse (fun hh => by cases hh; exact h rfl)
      | .isTrue h1 =>
        match decEqFields xs ys with
        | .isTrue h2 => .isTrue (by rw [hk, h1, h2])
        | .isFalse h => .isFalse (fun hh => by cases hh; exact h rfl)
    else
      .isFalse (fun hh => by cases hh; exact hk rfl)

end

instance : DecidableEq Json := decEq

/-- Decidable equality of fallible JSON results. -/
instance : DecidableEq (Except String Json) := fun a b =>
  match a, b with
  | .ok x, .ok y =>
    if h : x = y then .isTrue (by rw [h])
    else .isFalse (fun hh => absurd (by injection hh) h)
  | .ok _, .error _ => .isFalse (fun h => Except.noConfusion h)
  | .error _, .ok _ => .isFalse (fun h => Except.noConfusion h)
  | .error x, .error y =>
    if h : x = y then .isTrue (by rw [h])
    else .isFalse (fun hh => absurd (by injection hh) h)

/-- Association-list lookup, first binding wins (`serde_json::Map::get`). -/
def lookup : List (String × Json) → String → Option Json
  | [], _ => none
  | (k, v) :: rest, key => if k = key then some v else lookup rest key

/-- `Value::get(key)`: `none` on non-objects. -/
def get : Json → String → Option Json
  | .obj fields, key => lookup fields key
  | _, _ => none

/-- `Value::as_str`. -/
def asStr : Json → Option String
  | .str s => some s
  | _ => none

/-- `Value::as_i64` (integers in the `i64` range). -/
def asI64 : Json → Option Int
  | .num n => if -(2 ^ 63) ≤ n ∧ n < 2 ^ 63 then some n else none
  | _ => none

/-- `Value::as_bool`. -/
def asBool : Json → Option Bool
  | .bool b => some b
  | _ => none

/-- `Value::as_array`. -/
def asArray : Json → Option (List Json)
  | .arr xs => some xs
  | _ => none

/-- `Value::as_object`. -/
def asObject : Json → Option (List (String × Json))
  | .obj fields => some fields
  | _ => none

/-- `Value::is_null`. -/
def isNull : Json → Bool
  | .null => true
  | _ => false

/-- Strict code-point order on character lists (the order a `BTreeMap` keyed
by `String` uses, since UTF-8 byte order agrees with code-point order). -/
def charsLt : List Char → List Char → Bool
  | [], [] => false
  | [], _ :: _ => true
  | _ :: _, [] => false
  | a :: as, b :: bs =>
    if a.toNat < b.toNat then true
    else if b.toNat < a.toNat then false
    else charsLt as bs

/-- Strict key order for `sortFields`. -/
def keyLt (a b : String) : Bool :=
  charsLt a.data b.data

/-- Insert by key order; an equal key is replaced (`BTreeMap` insertion). -/
def insertSorted (kv : String × Json) : List (String × Json) → List (String × Json)
  | [] => [kv]
  | x :: xs =>
    if keyLt kv.1 x.1 then kv :: x :: xs
    else if kv.1 = x.1 then kv :: xs
    else x :: insertSorted kv xs

/-- Order the fields of an object the way a `BTreeMap` does: sorted by key,
with a later binding for the same key replacing an earlier one. -/
def sortFields (fields : List (String × Json)) : List (String × Json) :=
  fields.foldl (fun acc kv => insertSorted kv acc) []

mutual

/-- Canonical form of a JSON value: object fields sorted by key, recursively.
Two `Json` values denote the same `serde_json::Value` iff their canonical
forms are equal. -/
def canon : Json → Json
  | .null => .null
  | .bool b => .bool b
  | .num n => .num n
  | .str s => .str s
  | .arr xs => .arr (canonList xs)
  | .obj fields => .obj (sortFields (canonFields fields))

/-- Canonical forms of a list of values. -/
def canonList : List Json → List Json
  | [] => []
  | x :: xs => canon x :: canonList xs

/-- Canonical forms of the values of an association list. -/
def canonFields : List (String × Json) → List (String × Json)
  | [] => []
  | (k, v) :: xs => (k, canon v) :: canonFields xs

end

end Json

/-! ### Relational rows (the SQLite schema of `SQLITE_SCHEMA`)

One structure per table.  A nullable column is an `Option`; a `TEXT` column
holding serialized JSON is modelled by the parsed `Json` value (see the file
header).  `isFocusedToday`, `isSequential`, `isFocused`, `isCollapsed` are the
`INTEGER` flag columns, always written as `0`/`1` by the insert code. -/

/-- A row of the `tasks` table. -/
structure TaskRow where
  id : String
  title : String
  status : String
  priority : Option String
  taskMode : Option String
  startTime : Option String
  dueDate : Option String
  recurrence : Option Json
  pushCount : Option Int
  tags : Json
  contexts : Json
  checklist : Option Json
  description : Option String
  attachments : Option Json
  location : Option String
  projectId : Option String
  sectionId : Option String
  areaId : Option String
  orderNum : Option Int
  isFocusedToday : Int
  timeEstimate : Option String
  reviewAt : Option String
  completedAt : Option String
  rev : Option Int
  revBy : Option String
  createdAt : String
  updatedAt : String
  deletedAt : Option String
  purgedAt : Option String
  deriving DecidableEq

/-- A row of the `projects` table. -/
structure ProjectRow where
  id : String
  title : String
  status : String
  color : String
  orderNum : Option Int
  tagIds : Json
  isSequential : Int
  isFocused : Int
  supportNotes : Option String
  attachments : Option Json
  reviewAt : Option String
  areaId : Option String
  areaTitle : Option String
  rev : Option Int
  revBy : Option String
  createdAt : String
  updatedAt : String
  deletedAt : Option String
  deriving DecidableEq

/-- A row of the `areas` table. -/
structure AreaRow where
  id : String
  name : String
  color : Option String
  icon : Option String
  orderNum : Int
  deletedAt : Option String
  rev : Option Int
  revBy : Option String
  createdAt : Option String
  updatedAt : Option String
  deriving DecidableEq

/-- A row of the `sections` table. -/
structure SectionRow where
  id : String
  projectId : String
  title : String
  description : Option String
  orderNum : Option Int
  isCollapsed : Int
  rev : Option Int
  revBy : Option String
  createdAt : String
  updatedAt : String
  deletedAt : Option String
  deriving DecidableEq

/-- A row of the `tasks_fts` FTS5 index: what the `tasks_ai` trigger inserts. -/
structure TaskFtsRow where
  id : String
  title : String
  description : String
  tags : Json
  contexts : Json
  deriving DecidableEq

/-- A row of the `projects_fts` FTS5 index: what the `projects_ai` trigger
inserts. -/
structure ProjectFtsRow where
  id : String
  title : String
  supportNotes : String
  tagIds : Json
  areaTitle : String
  deriving DecidableEq

/-- The SQLite database state: one list per table, rows in insertion order
(`SELECT *` without `ORDER BY` returns rowid order for these tables), plus the
`settings` singleton (the serialized `data` of the row with `id = 1`, if any)
and the two FTS5 index tables. -/
structure DB where
  tasks : List TaskRow
  projects : List ProjectRow
  areas : List AreaRow
  sections : List SectionRow
  settings : Option Json
  tasksFts : List TaskFtsRow
  projectsFts : List ProjectFtsRow
  deriving DecidableEq

/-- A freshly created store: every table empty. -/
def DB.empty : DB := ⟨[], [], [], [], none, [], []⟩

/-! ### Entity codec: JSON → rows (`migrate_json_to_sqlite`'s inserts) -/

/-- `json_str`: serialize an optional JSON value to optional column text.
Serialization of a `serde_json::Value` to text cannot fail and is inverted by
parsing, so under the text-as-value convention it is the identity. -/
def json_str (value : Option Json) : Option Json := value

/-- `json_str_or_default`. -/
def json_str_or_default (value : Option Json) (default : Json) : Json :=
  (json_str value).getD default

/-- `parse_json_value`: parse optional column text, `Null` when absent (a
parse failure cannot occur on text produced by serialization). -/
def parse_json_value : Option Json → Json
  | some v => v
  | none => .null

/-- `parse_json_array`: like `parse_json_value` but coerced to an array. -/
def parse_json_array (raw : Option Json) : Json :=
  match parse_json_value raw with
  | .arr xs => .arr xs
  | _ => .arr []

/-- The `tasks` insert of `migrate_json_to_sqlite`: how one element of the
document's `tasks` array becomes a row. -/
def taskToRow (task : Json) : TaskRow where
  id := ((task.get "id").bind Json.asStr).getD ""
  title := ((task.get "title").bind Json.asStr).getD ""
  status := ((task.get "status").bind Json.asStr).getD "inbox"
  priority := (task.get "priority").bind Json.asStr
  taskMode := (task.get "taskMode").bind Json.asStr
  startTime := (task.get "startTime").bind Json.asStr
  dueDate := (task.get "dueDate").bind Json.asStr
  recurrence := json_str (task.get "recurrence")
  pushCount := (task.get "pushCount").bind Json.asI64
  tags := json_str_or_default (task.get "tags") (.arr [])
  contexts := json_str_or_default (task.get "contexts") (.arr [])
  checklist := json_str (task.get "checklist")
  description := (task.get "description").bind Json.asStr
  attachments := json_str (task.get "attachments")
  location := (task.get "location").bind Json.asStr
  projectId := (task.get "projectId").bind Json.asStr
  sectionId := (task.get "sectionId").bind Json.asStr
  areaId := (task.get "areaId").bind Json.asStr
  orderNum := (task.get "orderNum").bind Json.asI64
  isFocusedToday := if ((task.get "isFocusedToday").bind Json.asBool).getD false then 1 else 0
  timeEstimate := (task.get "timeEstimate").bind Json.asStr
  reviewAt := (task.get "reviewAt").bind Json.asStr
  completedAt := (task.get "completedAt").bind Json.asStr
  rev := (task.get "rev").bind Json.asI64
  revBy := (task.get "revBy").bind Json.asStr
  createdAt := ((task.get "createdAt").bind Json.asStr).getD ""
  updatedAt := ((task.get "updatedAt").bind Json.asStr).getD ""
  deletedAt := (task.get "deletedAt").bind Json.asStr
  purgedAt := (task.get "purgedAt").bind Json.asStr

/-- The `projects` insert of `migrate_json_to_sqlite`. -/
def projectToRow (project : Json) : ProjectRow where
  id := ((project.get "id").bind Json.asStr).getD ""
  title := ((project.get "title").bind Json.asStr).getD ""
  status := ((project.get "status").bind Json.asStr).getD "active"
  color := ((project.get "color").bind Json.asStr).getD "#6B7280"
  orderNum := (project.get "order").bind Json.asI64
  tagIds := json_str_or_default (project.get "tagIds") (.arr [])
  isSequential := if ((project.get "isSequential").bind Json.asBool).getD false then 1 else 0
  isFocused := if ((project.get "isFocused").bind Json.asBool).getD false then 1 else 0
  supportNotes := (project.get "supportNotes").bind Json.asStr
  attachments := json_str (project.get "attachments")
  reviewAt := (project.get "reviewAt").bind Json.asStr
  areaId := (project.get "areaId").bind Json.asStr
  areaTitle := (project.get "areaTitle").bind Json.asStr
  rev := (project.get "rev").bind Json.asI64
  revBy := (project.get "revBy").bind Json.asStr
  createdAt := ((project.get "createdAt").bind Json.asStr).getD ""
  updatedAt := ((project.get "updatedAt").bind Json.asStr).getD ""
  deletedAt := (project.get "deletedAt").bind Json.asStr

/-- The `areas` insert of `migrate_json_to_sqlite`. -/
def areaToRow (area : Json) : AreaRow where
  id := ((area.get "id").bind Json.asStr).getD ""
  name := ((area.get "name").bind Json.asStr).getD ""
  color := (area.get "color").bind Json.asStr
  icon := (area.get "icon").bind Json.asStr
  orderNum := ((area.get "order").bind Json.asI64).getD 0
  deletedAt := (area.get "deletedAt").bind Json.asStr
  rev := (area.get "rev").bind Json.asI64
  revBy := (area.get "revBy").bind Json.asStr
  createdAt := (area.get "createdAt").bind Json.asStr
  updatedAt := (area.get "updatedAt").bind Json.asStr

/-- The `sections` insert of `migrate_json_to_sqlite`. -/
def sectionToRow (sec : Json) : SectionRow where
  id := ((sec.get "id").bind Json.asStr).getD ""
  projectId := ((sec.get "projectId").bind Json.asStr).getD ""
  title := ((sec.get "title").bind Json.asStr).getD ""
  description := (sec.get "description").bind Json.asStr
  orderNum := (sec.get "order").bind Json.asI64
  isCollapsed := if ((sec.get "isCollapsed").bind Json.asBool).getD false then 1 else 0
  rev := (sec.get "rev").bind Json.asI64
  revBy := (sec.get "revBy").bind Json.asStr
  createdAt := ((sec.get "createdAt").bind Json.asStr).getD ""
  updatedAt := ((sec.get "updatedAt").bind Json.asStr).getD ""
  deletedAt := (sec.get "deletedAt").bind Json.asStr

/-! ### Triggers, inserts and the whole-document replace -/

/-- What the `tasks_ai` trigger writes into `tasks_fts` for an inserted row
(`coalesce(description, '')` and so on). -/
def taskFtsOf (r : TaskRow) : TaskFtsRow where
  id := r.id
  title := r.title
  description := r.description.getD ""
  tags := r.tags
  contexts := r.contexts

/-- What the `projects_ai` trigger writes into `projects_fts`. -/
def projectFtsOf (r : ProjectRow) : ProjectFtsRow where
  id := r.id
  title := r.title
  supportNotes := r.supportNotes.getD ""
  tagIds := r.tagIds
  areaTitle := r.areaTitle.getD ""

/-- `INSERT INTO tasks`: fails on a duplicate primary key; on success the
`tasks_ai` trigger also appends the index row. -/
def insertTaskRow (db : DB) (r : TaskRow) : Except String DB :=
  if db.tasks.any (fun t => t.id = r.id) then
    .error "UNIQUE constraint failed: tasks.id"
  else
    .ok { db with tasks := db.tasks ++ [r], tasksFts := db.tasksFts ++ [taskFtsOf r] }

/-- `INSERT INTO projects` with its `projects_ai` trigger. -/
def insertProjectRow (db : DB) (r : ProjectRow) : Except String DB :=
  if db.projects.any (fun p => p.id = r.id) then
    .error "UNIQUE constraint failed: projects.id"
  else
    .ok { db with projects := db.projects ++ [r],
                  projectsFts := db.projectsFts ++ [projectFtsOf r] }

/-- `INSERT INTO areas` (no index trigger). -/
def insertAreaRow (db : DB) (r : AreaRow) : Except String DB :=
  if db.areas.any (fun a => a.id = r.id) then
    .error "UNIQUE constraint failed: areas.id"
  else
    .ok { db with areas := db.areas ++ [r] }

/-- `INSERT INTO sections` (no index trigger). -/
def insertSectionRow (db : DB) (r : SectionRow) : Except String DB :=
  if db.sections.any (fun s => s.id = r.id) then
    .error "UNIQUE constraint failed: sections.id"
  else
    .ok { db with sections := db.sections ++ [r] }

/-- `DELETE FROM tasks`: the `tasks_ad` trigger removes, for every deleted
row, the index entries carrying that row's id. -/
def deleteAllTasks (db : DB) : DB :=
  { db with
    tasks := [],
    tasksFts := db.tasksFts.filter (fun f => db.tasks.all (fun t => t.id ≠ f.id)) }

/-- `DELETE FROM projects` with the `projects_ad` trigger. -/
def deleteAllProjects (db : DB) : DB :=
  { db with
    projects := [],
    projectsFts := db.projectsFts.filter (fun f => db.projects.all (fun p => p.id ≠ f.id)) }

/-- The body of `migrate_json_to_sqlite`'s transaction: delete every row of
every table, then re-insert from the incoming document.  Any row-level error
aborts the whole computation. -/
def migrateTx (db : DB) (data : Json) : Except String DB := do
  let db := deleteAllTasks db
  let db := deleteAllProjects db
  let db := { db with areas := [] }
  let db := { db with sections := [] }
  let db := { db with settings := none }
  let tasks := ((data.get "tasks").bind Json.asArray).getD []
  let db ← tasks.foldlM (fun db t => insertTaskRow db (taskToRow t)) db
  let projects := ((data.get "projects").bind Json.asArray).getD []
  let db ← projects.foldlM (fun db p => insertProjectRow db (projectToRow p)) db
  let areas := ((data.get "areas").bind Json.asArray).getD []
  let db ← areas.foldlM (fun db a => insertAreaRow db (areaToRow a)) db
  let sections := ((data.get "sections").bind Json.asArray).getD []
  let db ← sections.foldlM (fun db s => insertSectionRow db (sectionToRow s)) db
  pure { db with settings := some (json_str_or_default (data.get "settings") (.obj [])) }

/-- `migrate_json_to_sqlite`: the transaction commits on success; on any error
it is rolled back, so the caller's connection still sees the pre-call state.
Returns the resulting state and the surfaced error, if any. -/
def migrate_json_to_sqlite (db : DB) (data : Json) : DB × Option String :=
  match migrateTx db data with
  | .ok db2 => (db2, none)
  | .error e => (db, some e)

/-! ### Entity codec: rows → JSON (`row_to_*_value`, `read_sqlite_data`)

The decoders build a `serde_json::Map` by inserting keys in program order; in
the list model a conditional insertion is a zero-or-one-element segment. -/

/-- Insert a string key when the column is non-NULL. -/
def optStrField (k : String) (v : Option String) : List (String × Json) :=
  match v with
  | some s => [(k, .str s)]
  | none => []

/-- Insert an integer key when the column is non-NULL. -/
def optNumField (k : String) (v : Option Int) : List (String × Json) :=
  match v with
  | some n => [(k, .num n)]
  | none => []

/-- Insert a parsed JSON key when the parse result is not `Null`. -/
def optJsonField (k : String) (v : Json) : List (String × Json) :=
  if v.isNull then [] else [(k, v)]

/-- Insert `true` when an `INTEGER` flag column is non-zero. -/
def flagField (k : String) (v : Int) : List (String × Json) :=
  if v ≠ 0 then [(k, .bool true)] else []

/-- `row_to_task_value`. -/
def row_to_task_value (r : TaskRow) : Json :=
  .obj ([("id", .str r.id), ("title", .str r.title), ("status", .str r.status)]
    ++ optStrField "priority" r.priority
    ++ optStrField "taskMode" r.taskMode
    ++ optStrField "startTime" r.startTime
    ++ optStrField "dueDate" r.dueDate
    ++ optJsonField "recurrence" (parse_json_value r.recurrence)
    ++ optNumField "pushCount" r.pushCount
    ++ [("tags", parse_json_array (some r.tags))]
    ++ [("contexts", parse_json_array (some r.contexts))]
    ++ optJsonField "checklist" (parse_json_value r.checklist)
    ++ optStrField "description" r.description
    ++ optJsonField "attachments" (parse_json_value r.attachments)
    ++ optStrField "location" r.location
    ++ optStrField "projectId" r.projectId
    ++ optStrField "sectionId" r.sectionId
    ++ optStrField "areaId" r.areaId
    ++ optNumField "orderNum" r.orderNum
    ++ flagField "isFocusedToday" r.isFocusedToday
    ++ optStrField "timeEstimate" r.timeEstimate
    ++ optStrField "reviewAt" r.reviewAt
    ++ optStrField "completedAt" r.completedAt
    ++ optNumField "rev" r.rev
    ++ optStrField "revBy" r.revBy
    ++ [("createdAt", .str r.createdAt), ("updatedAt", .str r.updatedAt)]
    ++ optStrField "deletedAt" r.deletedAt
    ++ optStrField "purgedAt" r.purgedAt)

/-- `row_to_project_value` (note: the `orderNum` column is surfaced under the
document key `order`). -/
def row_to_project_value (r : ProjectRow) : Json :=
  .obj ([("id", .str r.id), ("title", .str r.title), ("status", .str r.status),
         ("color", .str r.color)]
    ++ optNumField "order" r.orderNum
    ++ [("tagIds", parse_json_array (some r.tagIds))]
    ++ flagField "isSequential" r.isSequential
    ++ flagField "isFocused" r.isFocused
    ++ optStrField "supportNotes" r.supportNotes
    ++ optJsonField "attachments" (parse_json_value r.attachments)
    ++ optStrField "reviewAt" r.reviewAt
    ++ optStrField "areaId" r.areaId
    ++ optStrField "areaTitle" r.areaTitle
    ++ optNumField "rev" r.rev
    ++ optStrField "revBy" r.revBy
    ++ [("createdAt", .str r.createdAt), ("updatedAt", .str r.updatedAt)]
    ++ optStrField "deletedAt" r.deletedAt)

/-- `row_to_section_value` (the `orderNum` column is surfaced as `order`). -/
def row_to_section_value (r : SectionRow) : Json :=
  .obj ([("id", .str r.id), ("projectId", .str r.projectId), ("title", .str r.title)]
    ++ optStrField "description" r.description
    ++ optNumField "order" r.orderNum
    ++ flagField "isCollapsed" r.isCollapsed
    ++ optNumField "rev" r.rev
    ++ optStrField "revBy" r.revBy
    ++ [("createdAt", .str r.createdAt), ("updatedAt", .str r.updatedAt)]
    ++ optStrField "deletedAt" r.deletedAt)

/-- The inline area decoder of `read_sqlite_data` (the `orderNum` column is
surfaced as `order`, always present). -/
def row_to_area_value (r : AreaRow) : Json :=
  .obj ([("id", .str r.id), ("name", .str r.name)]
    ++ optStrField "color" r.color
    ++ optStrField "icon" r.icon
    ++ [("order", .num r.orderNum)]
    ++ optStrField "deletedAt" r.deletedAt
    ++ optNumField "rev" r.rev
    ++ optStrField "revBy" r.revBy
    ++ optStrField "createdAt" r.createdAt
    ++ optStrField "updatedAt" r.updatedAt)

/-- `read_sqlite_data`: the full-document read.  Every row of every table is
decoded (soft-deleted rows included); missing or non-object settings become
the empty object. -/
def read_sqlite_data (db : DB) : Json :=
  .obj [("tasks", .arr (db.tasks.map row_to_task_value)),
        ("projects", .arr (db.projects.map row_to_project_value)),
        ("sections", .arr (db.sections.map row_to_section_value)),
        ("areas", .arr (db.areas.map row_to_area_value)),
        ("settings", .obj (((parse_json_value db.settings).asObject).getD []))]

/-! ### Structured queries and full-text search -/

/-- The filter of `query_tasks` (tauri command argument). -/
structure TaskQueryOptions where
  status : Option String
  project_id : Option String
  exclude_statuses : Option (List String)
  include_deleted : Option Bool
  include_archived : Option Bool

/-- The `WHERE` clauses `query_tasks` pushes, in program order, interpreted as
row predicates (`deletedAt IS NULL`, `status != 'archived'`, `status = ?`,
`status NOT IN (...)`, `projectId = ?`; an SQL comparison with a NULL
`projectId` is not satisfied, matching `Option` equality). -/
def task_where_clauses (o : TaskQueryOptions) : List (TaskRow → Bool) :=
  (if o.include_deleted.getD false then ([] : List (TaskRow → Bool))
   else [fun t => t.deletedAt.isNone])
  ++ (if o.include_archived.getD false then ([] : List (TaskRow → Bool))
      else [fun t => t.status != "archived"])
  ++ (match o.status with
      | some s =>
        if s = "all" then ([] : List (TaskRow → Bool)) else [fun t => t.status == s]
      | none => [])
  ++ (match o.exclude_statuses with
      | some xs =>
        if xs.isEmpty then ([] : List (TaskRow → Bool))
        else [fun t => !(xs.contains t.status)]
      | none => [])
  ++ (match o.project_id with
      | some pid => [fun t => t.projectId == some pid]
      | none => [])

/-- `query_tasks`: the clauses joined with `" AND "` filter the `tasks` table;
with no clause at all every row is returned.  Rows are decoded by
`row_to_task_value`. -/
def query_tasks (db : DB) (o : TaskQueryOptions) : List Json :=
  (db.tasks.filter (fun t => (task_where_clauses o).all (fun c => c t))).map row_to_task_value

/-- The per-character step of `build_fts_query`: keep alphanumerics and the
`#`/`@` markers, replace everything else by a space.  (Rust's
`char::is_alphanumeric` is Unicode-aware; the model uses its ASCII fragment,
on which all inputs considered here agree.) -/
def cleanChar (c : Char) : Char :=
  if c.isAlphanum || c = '#' || c = '@' then c else ' '

/-- Split a character list at spaces, keeping (possibly empty) segments.
After `cleanChar`, spaces are the only whitespace left, so this is
`split_whitespace` up to the empty segments the next filter drops. -/
def splitSpaces (acc : List Char) : List Char → List String
  | [] => [String.mk acc.reverse]
  | c :: cs =>
    if c = ' ' then String.mk acc.reverse :: splitSpaces [] cs
    else splitSpaces (c :: acc) cs

/-- The surviving tokens of `build_fts_query`: split the cleaned text on
whitespace, drop empty tokens, append the prefix-match star. -/
def fts_tokens (s : String) : List String :=
  (((splitSpaces [] (s.data.map cleanChar)).filter
      (fun t => !t.isEmpty)).map (fun t => t ++ "*"))

/-- `build_fts_query`: `none` when no token survives. -/
def build_fts_query (input : String) : Option String :=
  let tokens := fts_tokens input
  if tokens.isEmpty then none else some (String.intercalate " " tokens)

/-- The result shape of `search_fts`. -/
structure SearchResult where
  tasks : List Json
  projects : List Json
  deriving DecidableEq

/-- `search_fts`.  The FTS5 `MATCH` operator is abstracted by the oracles
`matchT`/`matchP` (a predicate of the built query on an index row); the rest
mirrors the two SQL statements: join the index with the base table on `id`,
require `deletedAt IS NULL`, decode with `row_to_*_value`.  With no extractable
token the command returns empty lists without touching the database. -/
def search_fts (db : DB) (matchT : String → TaskFtsRow → Bool)
    (matchP : String → ProjectFtsRow → Bool) (query : String) : SearchResult :=
  match build_fts_query query with
  | none => ⟨[], []⟩
  | some q =>
    ⟨db.tasksFts.flatMap (fun f =>
        (db.tasks.filter (fun t => f.id == t.id && matchT q f && t.deletedAt.isNone)).map
          row_to_task_value),
     db.projectsFts.flatMap (fun f =>
        (db.projects.filter (fun p => f.id == p.id && matchP q f && p.deletedAt.isNone)).map
          row_to_project_value)⟩

/-- The task half of `ensure_fts_populated`: if a rebuild is forced, or the
index is empty, or some base row has no index entry, or some index entry has
no base row, `tasks_fts` is rebuilt from the whole `tasks` table. -/
def ensureTaskFts (db : DB) (forceRebuild : Bool) : DB :=
  let missingT := (db.tasks.filter (fun t => !db.tasksFts.any (fun f => f.id == t.id))).length
  let extraT := (db.tasksFts.filter (fun f => !db.tasks.any (fun t => t.id == f.id))).length
  if forceRebuild || db.tasksFts.length = 0 || missingT > 0 || extraT > 0 then
    { db with tasksFts := db.tasks.map taskFtsOf }
  else db

/-- The project half of `ensure_fts_populated`, same checks on
`projects`/`projects_fts`. -/
def ensureProjectFts (db : DB) (forceRebuild : Bool) : DB :=
  let missingP := (db.projects.filter (fun p => !db.projectsFts.any (fun f => f.id == p.id))).length
  let extraP := (db.projectsFts.filter (fun f => !db.projects.any (fun p => p.id == f.id))).length
  if forceRebuild || db.projectsFts.length = 0 || missingP > 0 || extraP > 0 then
    { db with projectsFts := db.projects.map projectFtsOf }
  else db

/-- `ensure_fts_populated`: the startup reconciliation sweep, the task block
followed by the project block. -/
def ensure_fts_populated (db : DB) (forceRebuild : Bool) : DB :=
  ensureProjectFts (ensureTaskFts db forceRebuild) forceRebuild

/-! ### Sync protocol (§ of `read_sync_file` / `write_sync_file`)

File reads and JSON parsing are abstracted into oracles: one read attempt of a
file is a function from the attempt index to the combined outcome of
`fs::read_to_string` followed by `parse_json_relaxed` (both failure kinds feed
the same `last_err` slot in the code).  A file written by `write_sync_file`
parses back to the written value (atomic replace plus the to_string/from_str
identity). -/

/-- The default document `read_sync_file` returns when no sync file exists,
and `normalize_sync_value` returns for a non-object. -/
def emptySyncDoc : Json :=
  .obj [("tasks", .arr []), ("projects", .arr []), ("areas", .arr []),
        ("settings", .obj [])]

/-- `matches!(map.get(k), Some(Value::Array(_)))`. -/
def isArrayEntry : Option Json → Bool
  | some (.arr _) => true
  | _ => false

/-- `matches!(map.get(k), Some(Value::Object(_)))`. -/
def isObjectEntry : Option Json → Bool
  | some (.obj _) => true
  | _ => false

/-- `serde_json::Map::insert`: replace the binding in place when the key is
present, otherwise add it. -/
def objInsert (m : List (String × Json)) (k : String) (v : Json) :
    List (String × Json) :=
  if (Json.lookup m k).isSome then
    m.map (fun p => if p.1 = k then (k, v) else p)
  else m ++ [(k, v)]

/-- `normalize_sync_value`: on an object, force `tasks`/`projects`/`areas` to
be arrays and `settings` to be an object (replacing a missing or wrongly
typed entry); any non-object becomes the empty document. -/
def normalize_sync_value (value : Json) : Json :=
  match value with
  | .obj m =>
    let m := if isArrayEntry (Json.lookup m "tasks") then m
             else objInsert m "tasks" (.arr [])
    let m := if isArrayEntry (Json.lookup m "projects") then m
             else objInsert m "projects" (.arr [])
    let m := if isArrayEntry (Json.lookup m "areas") then m
             else objInsert m "areas" (.arr [])
    let m := if isObjectEntry (Json.lookup m "settings") then m
             else objInsert m "settings" (.obj [])
    .obj m
  | _ => emptySyncDoc

/-- The loop of `read_json_with_retries`: `i` is the index of the next
attempt, the `Nat` argument the number of attempts left, and the `Option` the
last error seen.  A successful read+parse is normalized and returned. -/
def retryLoop (readAt : Nat → Except String Json) (i : Nat) :
    Nat → Option String → Except String Json
  | 0, lastErr => .error (lastErr.getD "Failed to read sync file")
  | n + 1, lastErr =>
    match readAt i with
    | .ok v => .ok (normalize_sync_value v)
    | .error e => retryLoop readAt (i + 1) n (some e)

/-- `read_json_with_retries path attempts`. -/
def read_json_with_retries (readAt : Nat → Except String Json) (attempts : Nat) :
    Except String Json :=
  retryLoop readAt 0 attempts none

/-- The sleeps `read_json_with_retries` performs, in order: after attempt `i`
(except the last) it sleeps `120 + i * 80` milliseconds.  The entropy oracle
stands for any randomness source available to the process; the code never
consults one, so the argument is unused. -/
def read_retry_delays (entropy : Nat → Nat) (attempts : Nat) : List Nat :=
  (List.range attempts).filterMap
    (fun i => if i + 1 < attempts then some (120 + i * 80) else none)

/-- The filesystem as `read_sync_file` observes it: existence of the primary
`data.json`, the legacy `mindwtr-sync.json` and the `data.json.bak` sibling,
and per-attempt read+parse outcomes (the two retried files are indexed by
attempt; the legacy file is read exactly once). -/
structure SyncReadEnv where
  primaryExists : Bool
  legacyExists : Bool
  backupExists : Bool
  primaryRead : Nat → Except String Json
  backupRead : Nat → Except String Json
  legacyRead : Except String Json

/-- `read_sync_file`: primary absent → legacy file (single lenient read,
normalized) or, when that is absent too, the empty default document; primary
present → up to 5 attempts, then, if a backup exists, up to 2 attempts on the
`.bak` sibling, and if everything failed the primary's last error. -/
def read_sync_file (env : SyncReadEnv) : Except String Json :=
  if !env.primaryExists then
    if env.legacyExists then
      env.legacyRead.map normalize_sync_value
    else
      .ok emptySyncDoc
  else
    match read_json_with_retries env.primaryRead 5 with
    | .ok v => .ok v
    | .error primaryErr =>
      if env.backupExists then
        match read_json_with_retries env.backupRead 2 with
        | .ok v => .ok v
        | .error _ => .error primaryErr
      else .error primaryErr

/-- The state `write_sync_file data` leaves for a subsequent read: the primary
file exists and every read attempt parses back to `data` (temp-file write,
fsync, atomic rename; the written pretty-printed text has no BOM or trailing
padding, so `parse_json_relaxed` returns the value itself).  The legacy and
backup oracles are irrelevant to a successful primary read and are fixed to
the absent/failing state. -/
def write_sync_file_env (data : Json) : SyncReadEnv where
  primaryExists := true
  legacyExists := false
  backupExists := false
  primaryRead := fun _ => .ok data
  backupRead := fun _ => .error "absent"
  legacyRead := .error "absent"

/-- Writing a document to the sync mirror and reading it back. -/
def sync_round_trip (data : Json) : Except String Json :=
  read_sync_file (write_sync_file_env data)

/-- An object document whose `tasks`/`projects`/`areas` are present as arrays
and whose `settings` is present as an object — the shape on which
`normalize_sync_value` is the identity. -/
def goodSyncDoc : Json → Bool
  | .obj m =>
    isArrayEntry (Json.lookup m "tasks") && isArrayEntry (Json.lookup m "projects")
      && isArrayEntry (Json.lookup m "areas") && isObjectEntry (Json.lookup m "settings")
  | _ => false

/-- Modelled from the claim's wording (not from the source): a normalization
that synthesizes `tasks`/`projects`/`areas` as empty arrays and `settings` as
an empty map only when the key is missing, and touches nothing else. -/
def normalize_per_claim (value : Json) : Json :=
  match value with
  | .obj m =>
    let m := if (Json.lookup m "tasks").isSome then m else objInsert m "tasks" (.arr [])
    let m := if (Json.lookup m "projects").isSome then m else objInsert m "projects" (.arr [])
    let m := if (Json.lookup m "areas").isSome then m else objInsert m "areas" (.arr [])
    let m := if (Json.lookup m "settings").isSome then m else objInsert m "settings" (.obj [])
    .obj m
  | v => v

/-! ### Sync-directory validation (`validate_sync_dir`, `set_sync_path`) -/

/-- What `fs::symlink_metadata` reveals about a path. -/
structure FileMeta where
  isSymlink : Bool
  isDir : Bool

/-- The filesystem as `validate_sync_dir` observes it.  `pathExists` is
`Path::exists` (which follows symlinks); `symlinkMeta` is
`fs::symlink_metadata` (which does not); `canonicalize` resolves a path;
`createDirAll` is the outcome `fs::create_dir_all` would have. -/
structure FsView where
  pathExists : String → Bool
  symlinkMeta : String → Except String FileMeta
  canonicalize : String → Except String String
  createDirAll : String → Except String Unit

/-- The post-canonicalization half of `validate_sync_dir`: canonicalize, then
re-check that the result is not a symlink and is a directory. -/
def validate_canonical (fs : FsView) (path : String) : Except String String := do
  let canonical ← fs.canonicalize path
  let meta ← fs.symlinkMeta canonical
  if meta.isSymlink then
    .error "Sync path must not be a symlink"
  else if !meta.isDir then
    .error "Sync path must be a directory"
  else
    .ok canonical

/-- `validate_sync_dir`: reject the empty path; on an existing path reject a
symlink or a non-directory before canonicalizing; create a missing directory;
then re-check after canonicalization.  The `Bool` records whether
`fs::create_dir_all` was invoked. -/
def validate_sync_dir (fs : FsView) (path : String) : Except String String × Bool :=
  if path = "" then
    (.error "Sync path cannot be empty", false)
  else if fs.pathExists path then
    match fs.symlinkMeta path with
    | .error e => (.error e, false)
    | .ok meta =>
      if meta.isSymlink then
        (.error "Sync path must not be a symlink", false)
      else if !meta.isDir then
        (.error "Sync path must be a directory", false)
      else
        (validate_canonical fs path, false)
  else
    match fs.createDirAll path with
    | .error e => (.error e, true)
    | .ok _ => (validate_canonical fs path, true)

/-- `set_sync_path` for an already trimmed and `normalize_sync_dir`-stripped
candidate (the path-string preprocessing is not modelled): validate, and only
on success rewrite the config files.  Returns the result, whether a directory
was created, and whether the config was written. -/
def set_sync_path (fs : FsView) (candidate : String) :
    Except String String × Bool × Bool :=
  match validate_sync_dir fs candidate with
  | (.error e, created) => (.error e, created, false)
  | (.ok canonical, created) => (.ok canonical, created, true)

/-! ### Stored normal form

The relational round trip is not the identity on arbitrary documents: the
codec synthesizes list fields, drops `false` flags and defaulted fields, and
so on.  The structured types below describe exactly the documents the store
itself emits (`row_to_*_value`'s output shape); `render*` produces the JSON
document of such a description. -/

/-- Insert a JSON key when present (used for the stored JSON-blob fields). -/
def optJsonValField (k : String) (v : Option Json) : List (String × Json) :=
  match v with
  | some j => [(k, j)]
  | none => []

/-- Insert `true` when a flag is set, nothing otherwise. -/
def boolFlagField (k : String) (b : Bool) : List (String × Json) :=
  if b then [(k, .bool true)] else []

/-- A task document in stored normal form. -/
structure TaskE where
  id : String
  title : String
  status : String
  priority : Option String
  taskMode : Option String
  startTime : Option String
  dueDate : Option String
  recurrence : Option Json
  pushCount : Option Int
  tags : List Json
  contexts : List Json
  checklist : Option Json
  description : Option String
  attachments : Option Json
  location : Option String
  projectId : Option String
  sectionId : Option String
  areaId : Option String
  orderNum : Option Int
  isFocusedToday : Bool
  timeEstimate : Option String
  reviewAt : Option String
  completedAt : Option String
  rev : Option Int
  revBy : Option String
  createdAt : String
  updatedAt : String
  deletedAt : Option String
  purgedAt : Option String

/-- The JSON object of a stored-normal-form task (the shape
`row_to_task_value` emits). -/
def renderTask (t : TaskE) : Json :=
  .obj ([("id", .str t.id), ("title", .str t.title), ("status", .str t.status)]
    ++ optStrField "priority" t.priority
    ++ optStrField "taskMode" t.taskMode
    ++ optStrField "startTime" t.startTime
    ++ optStrField "dueDate" t.dueDate
    ++ optJsonValField "recurrence" t.recurrence
    ++ optNumField "pushCount" t.pushCount
    ++ [("tags", .arr t.tags)]
    ++ [("contexts", .arr t.contexts)]
    ++ optJsonValField "checklist" t.checklist
    ++ optStrField "description" t.description
    ++ optJsonValField "attachments" t.attachments
    ++ optStrField "location" t.location
    ++ optStrField "projectId" t.projectId
    ++ optStrField "sectionId" t.sectionId
    ++ optStrField "areaId" t.areaId
    ++ optNumField "orderNum" t.orderNum
    ++ boolFlagField "isFocusedToday" t.isFocusedToday
    ++ optStrField "timeEstimate" t.timeEstimate
    ++ optStrField "reviewAt" t.reviewAt
    ++ optStrField "completedAt" t.completedAt
    ++ optNumField "rev" t.rev
    ++ optStrField "revBy" t.revBy
    ++ [("createdAt", .str t.createdAt), ("updatedAt", .str t.updatedAt)]
    ++ optStrField "deletedAt" t.deletedAt
    ++ optStrField "purgedAt" t.purgedAt)

/-- A project document in stored normal form. -/
structure ProjectE where
  id : String
  title : String
  status : String
  color : String
  order : Option Int
  tagIds : List Json
  isSequential : Bool
  isFocused : Bool
  supportNotes : Option String
  attachments : Option Json
  reviewAt : Option String
  areaId : Option String
  areaTitle : Option String
  rev : Option Int
  revBy : Option String
  createdAt : String
  updatedAt : String
  deletedAt : Option String

/-- The JSON object of a stored-normal-form project. -/
def renderProject (p : ProjectE) : Json :=
  .obj ([("id", .str p.id), ("title", .str p.title), ("status", .str p.status),
         ("color", .str p.color)]
    ++ optNumField "order" p.order
    ++ [("tagIds", .arr p.tagIds)]
    ++ boolFlagField "isSequential" p.isSequential
    ++ boolFlagField "isFocused" p.isFocused
    ++ optStrField "supportNotes" p.supportNotes
    ++ optJsonValField "attachments" p.attachments
    ++ optStrField "reviewAt" p.reviewAt
    ++ optStrField "areaId" p.areaId
    ++ optStrField "areaTitle" p.areaTitle
    ++ optNumField "rev" p.rev
    ++ optStrField "revBy" p.revBy
    ++ [("createdAt", .str p.createdAt), ("updatedAt", .str p.updatedAt)]
    ++ optStrField "deletedAt" p.deletedAt)

/-- An area document in stored normal form. -/
structure AreaE where
  id : String
  name : String
  color : Option String
  icon : Option String
  order : Int
  deletedAt : Option String
  rev : Option Int
  revBy : Option String
  createdAt : Option String
  updatedAt : Option String

/-- The JSON object of a stored-normal-form area. -/
def renderArea (a : AreaE) : Json :=
  .obj ([("id", .str a.id), ("name", .str a.name)]
    ++ optStrField "color" a.color
    ++ optStrField "icon" a.icon
    ++ [("order", .num a.order)]
    ++ optStrField "deletedAt" a.deletedAt
    ++ optNumField "rev" a.rev
    ++ optStrField "revBy" a.revBy
    ++ optStrField "createdAt" a.createdAt
    ++ optStrField "updatedAt" a.updatedAt)

/-- A section document in stored normal form. -/
structure SectionE where
  id : String
  projectId : String
  title : String
  description : Option String
  order : Option Int
  isCollapsed : Bool
  rev : Option Int
  revBy : Option String
  createdAt : String
  updatedAt : String
  deletedAt : Option String

/-- The JSON object of a stored-normal-form section. -/
def renderSection (s : SectionE) : Json :=
  .obj ([("id", .str s.id), ("projectId", .str s.projectId), ("title", .str s.title)]
    ++ optStrField "description" s.description
    ++ optNumField "order" s.order
    ++ boolFlagField "isCollapsed" s.isCollapsed
    ++ optNumField "rev" s.rev
    ++ optStrField "revBy" s.revBy
    ++ [("createdAt", .str s.createdAt), ("updatedAt", .str s.updatedAt)]
    ++ optStrField "deletedAt" s.deletedAt)

/-- A document in stored normal form. -/
structure DocE where
  tasks : List TaskE
  projects : List ProjectE
  areas : List AreaE
  sections : List SectionE
  settings : List (String × Json)

/-- The JSON document of a stored-normal-form description, with the key order
`read_sqlite_data` uses. -/
def renderDoc (d : DocE) : Json :=
  .obj [("tasks", .arr (d.tasks.map renderTask)),
        ("projects", .arr (d.projects.map renderProject)),
        ("sections", .arr (d.sections.map renderSection)),
        ("areas", .arr (d.areas.map renderArea)),
        ("settings", .obj d.settings)]

/-- An integer representable as an SQLite `INTEGER` (`i64`). -/
def i64Ok (n : Int) : Bool :=
  decide (-(2 ^ 63) ≤ n) && decide (n < 2 ^ 63)

/-- An optional integer in `i64` range. -/
def i64OkOpt : Option Int → Bool
  | none => true
  | some n => i64Ok n

/-- An optional JSON blob that is not `Null` (a stored `Null` blob would be
dropped on read). -/
def nonNullOpt : Option Json → Bool
  | some .null => false
  | _ => true

/-- Integer fields in range and JSON blobs non-`Null`. -/
def TaskE.wf (t : TaskE) : Bool :=
  i64OkOpt t.pushCount && i64OkOpt t.orderNum && i64OkOpt t.rev
    && nonNullOpt t.recurrence && nonNullOpt t.checklist && nonNullOpt t.attachments

/-- Integer fields in range and the attachments blob non-`Null`. -/
def ProjectE.wf (p : ProjectE) : Bool :=
  i64OkOpt p.order && i64OkOpt p.rev && nonNullOpt p.attachments

/-- Integer fields in range. -/
def AreaE.wf (a : AreaE) : Bool :=
  i64Ok a.order && i64OkOpt a.rev

/-- Integer fields in range. -/
def SectionE.wf (s : SectionE) : Bool :=
  i64OkOpt s.order && i64OkOpt s.rev

/-- Every entity well-formed and ids unique per table (the primary keys). -/
def DocE.wf (d : DocE) : Prop :=
  (∀ t ∈ d.tasks, t.wf = true) ∧ (d.tasks.map TaskE.id).Nodup
    ∧ (∀ p ∈ d.projects, p.wf = true) ∧ (d.projects.map ProjectE.id).Nodup
    ∧ (∀ a ∈ d.areas, a.wf = true) ∧ (d.areas.map AreaE.id).Nodup
    ∧ (∀ s ∈ d.sections, s.wf = true) ∧ (d.sections.map SectionE.id).Nodup

instance (d : DocE) : Decidable d.wf := by
  unfold DocE.wf
  infer_instance

/-! ### Concrete data used to exercise the theorems -/

/-- A task with every optional field populated. -/
def fullTask : TaskE where
  id := "t1"
  title := "Full"
  status := "next"
  priority := some "high"
  taskMode := some "deep"
  startTime := some "2024-01-01T10:00:00Z"
  dueDate := some "2024-01-02"
  recurrence := some (.obj [("freq", .str "daily")])
  pushCount := some 3
  tags := [.str "a", .str "#b"]
  contexts := [.str "@home"]
  checklist := some (.arr [.obj [("t", .str "x"), ("done", .bool true)]])
  description := some "desc"
  attachments := some (.arr [.str "f.png"])
  location := some "loc"
  projectId := some "p1"
  sectionId := some "s1"
  areaId := some "a1"
  orderNum := some 7
  isFocusedToday := true
  timeEstimate := some "30m"
  reviewAt := some "2024-02-01"
  completedAt := some "2024-03-01"
  rev := some 12
  revBy := some "dev"
  createdAt := "2023-12-31"
  updatedAt := "2024-01-05"
  deletedAt := some "2024-06-01"
  purgedAt := some "2024-07-01"

/-- A task with every optional field absent. -/
def bareTask : TaskE where
  id := "t2"
  title := "Bare"
  status := "inbox"
  priority := none
  taskMode := none
  startTime := none
  dueDate := none
  recurrence := none
  pushCount := none
  tags := []
  contexts := []
  checklist := none
  description := none
  attachments := none
  location := none
  projectId := none
  sectionId := none
  areaId := none
  orderNum := none
  isFocusedToday := false
  timeEstimate := none
  reviewAt := none
  completedAt := none
  rev := none
  revBy := none
  createdAt := "2024-01-01"
  updatedAt := "2024-01-01"
  deletedAt := none
  purgedAt := none

/-- A project with every optional field populated. -/
def fullProject : ProjectE where
  id := "p1"
  title := "Proj"
  status := "active"
  color := "#FF0000"
  order := some 2
  tagIds := [.str "tag1"]
  isSequential := true
  isFocused := true
  supportNotes := some "notes"
  attachments := some (.arr [.str "a.txt"])
  reviewAt := some "2024-02-02"
  areaId := some "a1"
  areaTitle := some "Area One"
  rev := some 4
  revBy := some "dev"
  createdAt := "2023-11-01"
  updatedAt := "2024-01-02"
  deletedAt := some "2024-05-01"

/-- A project with every optional field absent. -/
def bareProject : ProjectE where
  id := "p2"
  title := "BareProj"
  status := "someday"
  color := "#6B7280"
  order := none
  tagIds := []
  isSequential := false
  isFocused := false
  supportNotes := none
  attachments := none
  reviewAt := none
  areaId := none
  areaTitle := none
  rev := none
  revBy := none
  createdAt := "2024-01-01"
  updatedAt := "2024-01-01"
  deletedAt := none

/-- An area with every optional field populated. -/
def fullArea : AreaE where
  id := "a1"
  name := "Area One"
  color := some "#00FF00"
  icon := some "star"
  order := 1
  deletedAt := some "2024-04-04"
  rev := some 9
  revBy := some "dev"
  createdAt := some "2023-10-10"
  updatedAt := some "2024-01-03"

/-- An area with every optional field absent. -/
def bareArea : AreaE where
  id := "a2"
  name := "Bare Area"
  color := none
  icon := none
  order := 0
  deletedAt := none
  rev := none
  revBy := none
  createdAt := none
  updatedAt := none

/-- A section with every optional field populated. -/
def fullSection : SectionE where
  id := "s1"
  projectId := "p1"
  title := "Sec"
  description := some "sec desc"
  order := some 5
  isCollapsed := true
  rev := some 2
  revBy := some "dev"
  createdAt := "2023-09-09"
  updatedAt := "2024-01-04"
  deletedAt := some "2024-03-03"

/-- A section with every optional field absent. -/
def bareSection : SectionE where
  id := "s2"
  projectId := "p2"
  title := "BareSec"
  description := none
  order := none
  isCollapsed := false
  rev := none
  revBy := none
  createdAt := "2024-01-01"
  updatedAt := "2024-01-01"
  deletedAt := none

/-- A stored-normal-form document holding, per entity kind, one fully
populated and one fully bare entity. -/
def roundTripDoc : DocE where
  tasks := [fullTask, bareTask]
  projects := [fullProject, bareProject]
  areas := [fullArea, bareArea]
  sections := [fullSection, bareSection]
  settings := [("theme", .str "dark")]

/-- A minimal legal document (a task with only required fields, no `tags`
key): the relational round trip adds `tags`/`contexts` to it. -/
def minimalTaskDoc : Json :=
  .obj [("tasks", .arr [.obj [("id", .str "t1"), ("title", .str "A"),
                              ("status", .str "inbox"), ("createdAt", .str "2024-01-01"),
                              ("updatedAt", .str "2024-01-01")]]),
        ("projects", .arr []), ("sections", .arr []), ("areas", .arr []),
        ("settings", .obj [])]

/-- A document whose `tasks` array holds the same id twice: the second insert
violates the primary key. -/
def dupIdDoc : Json :=
  .obj [("tasks", .arr [.obj [("id", .str "t1"), ("title", .str "A"),
                              ("status", .str "inbox")],
                        .obj [("id", .str "t1"), ("title", .str "B"),
                              ("status", .str "inbox")]])]

/-- A database with one task row, used to observe the rollback. -/
def oneTaskDB : DB :=
  { tasks := [taskToRow (.obj [("id", .str "old"), ("title", .str "Old"),
                               ("status", .str "done")])],
    projects := [], areas := [], sections := [], settings := none,
    tasksFts := [], projectsFts := [] }

/-- A document with one soft-deleted task and one soft-deleted project. -/
def softDeletedDoc : Json :=
  .obj [("tasks", .arr [.obj [("id", .str "t1"), ("title", .str "Gone"),
                              ("status", .str "inbox"),
                              ("deletedAt", .str "2024-05-05")]]),
        ("projects", .arr [.obj [("id", .str "p1"), ("title", .str "GoneP"),
                                 ("status", .str "active"),
                                 ("deletedAt", .str "2024-05-05")]])]

/-- A database with a live and a soft-deleted task, a live and a soft-deleted
project, and the index rows their insert triggers would have produced. -/
def mixedDB : DB :=
  let live := taskToRow (.obj [("id", .str "t1"), ("title", .str "alpha beta"),
                               ("status", .str "inbox")])
  let dead := taskToRow (.obj [("id", .str "t2"), ("title", .str "alpha gone"),
                               ("status", .str "inbox"),
                               ("deletedAt", .str "2024-05-05")])
  let liveP := projectToRow (.obj [("id", .str "p1"), ("title", .str "alpha proj"),
                                   ("status", .str "active")])
  let deadP := projectToRow (.obj [("id", .str "p2"), ("title", .str "alpha dead"),
                                   ("status", .str "active"),
                                   ("deletedAt", .str "2024-05-05")])
  { tasks := [live, dead], projects := [liveP, deadP], areas := [], sections := [],
    settings := none,
    tasksFts := [taskFtsOf live, taskFtsOf dead],
    projectsFts := [projectFtsOf liveP, projectFtsOf deadP] }

/-- The always-matching stand-in for the FTS5 `MATCH` oracle on tasks. -/
def matchAllT : String → TaskFtsRow → Bool := fun _ _ => true

/-- The always-matching stand-in for the FTS5 `MATCH` oracle on projects. -/
def matchAllP : String → ProjectFtsRow → Bool := fun _ _ => true

/-- An object document whose `tasks` entry is present but not an array. -/
def numberTasksDoc : Json := .obj [("tasks", .num 5)]

/-- Per-attempt errors used to observe the retry budget. -/
def attemptErr : Nat → String := fun i => if i = 4 then "primary last" else "earlier"

/-- A sync directory where the primary file exists but every read fails, no
backup exists, and the legacy file is irrelevant. -/
def allFailEnv : SyncReadEnv where
  primaryExists := true
  legacyExists := false
  backupExists := false
  primaryRead := fun i => .error (attemptErr i)
  backupRead := fun _ => .error "unused"
  legacyRead := .error "unused"

/-- A sync directory where the primary file keeps failing but the second
attempt on the `.bak` sibling succeeds. -/
def backupSavesEnv : SyncReadEnv where
  primaryExists := true
  legacyExists := false
  backupExists := true
  primaryRead := fun i => .error (attemptErr i)
  backupRead := fun i => if i = 1 then .ok numberTasksDoc else .error "earlier"
  legacyRead := .error "unused"

/-- A sync directory with only the legacy-named file. -/
def legacyOnlyEnv : SyncReadEnv where
  primaryExists := false
  legacyExists := true
  backupExists := false
  primaryRead := fun _ => .error "unused"
  backupRead := fun _ => .error "unused"
  legacyRead := .ok numberTasksDoc

/-- A sync directory with no primary and no legacy file. -/
def nothingThereEnv : SyncReadEnv where
  primaryExists := false
  legacyExists := false
  backupExists := true
  primaryRead := fun _ => .error "unused"
  backupRead := fun _ => .ok numberTasksDoc
  legacyRead := .error "unused"

/-- A filesystem where `/sync` is a symlink to a real directory. -/
def symlinkFs : FsView where
  pathExists := fun p => p = "/sync" || p = "/real"
  symlinkMeta := fun p =>
    if p = "/sync" then .ok ⟨true, true⟩
    else if p = "/real" then .ok ⟨false, true⟩
    else .error "no such path"
  canonicalize := fun p =>
    if p = "/sync" || p = "/real" then .ok "/real" else .error "no such path"
  createDirAll := fun _ => .ok ()

/-- A filesystem whose canonicalization surfaces a symlink only in the
post-canonicalization check. -/
def lateSymlinkFs : FsView where
  pathExists := fun p => p = "/dir" || p = "/canon"
  symlinkMeta := fun p =>
    if p = "/dir" then .ok ⟨false, true⟩
    else if p = "/canon" then .ok ⟨true, true⟩
    else .error "no such path"
  canonicalize := fun p => if p = "/dir" then .ok "/canon" else .error "no such path"
  createDirAll := fun _ => .ok ()


/-! ## Helper lemmas -/

theorem lookup_append (l₁ l₂ : List (String × Json)) (k : String) :
    Json.lookup (l₁ ++ l₂) k = (Json.lookup l₁ k).or (Json.lookup l₂ k) := by
  induction l₁ with
  | nil => simp [Json.lookup]
  | cons x xs ih =>
    obtain ⟨a, b⟩ := x
    by_cases h : a = k <;> simp [Json.lookup, h, ih]

theorem lookup_optStrField (k key : String) (v : Option String) :
    Json.lookup (optStrField k v) key = if k = key then v.map Json.str else none := by
  cases v <;> by_cases h : k = key <;> simp [optStrField, Json.lookup, h]

theorem lookup_optNumField (k key : String) (v : Option Int) :
    Json.lookup (optNumField k v) key = if k = key then v.map Json.num else none := by
  cases v <;> by_cases h : k = key <;> simp [optNumField, Json.lookup, h]

theorem lookup_optJsonValField (k key : String) (v : Option Json) :
    Json.lookup (optJsonValField k v) key = if k = key then v else none := by
  cases v <;> by_cases h : k = key <;> simp [optJsonValField, Json.lookup, h]

theorem lookup_boolFlagField (k key : String) (b : Bool) :
    Json.lookup (boolFlagField k b) key =
      if k = key then (if b then some (.bool true) else none) else none := by
  cases b <;> by_cases h : k = key <;> simp [boolFlagField, Json.lookup, h]

theorem asStr_str (s : String) : Json.asStr (Json.str s) = some s := rfl

theorem asStr_map_str (v : Option String) : (v.map Json.str).bind Json.asStr = v := by
  cases v <;> simp [Json.asStr]

theorem asI64_map_num (v : Option Int) (h : i64OkOpt v = true) :
    (v.map Json.num).bind Json.asI64 = v := by
  cases v with
  | none => simp
  | some n =>
    simp only [i64OkOpt, i64Ok, Bool.and_eq_true, decide_eq_true_eq] at h
    norm_num at h
    simp [Json.asI64, h.1, h.2]

theorem asBool_flag (b : Bool) :
    ((if b then some (Json.bool true) else none).bind Json.asBool).getD false = b := by
  cases b <;> simp [Json.asBool]

theorem optJsonField_parse (k : String) (v : Option Json) (h : nonNullOpt v = true) :
    optJsonField k (parse_json_value v) = optJsonValField k v := by
  cases v with
  | none => simp [parse_json_value, optJsonField, optJsonValField, Json.isNull]
  | some j =>
    cases j <;> simp_all [parse_json_value, optJsonField, optJsonValField, Json.isNull, nonNullOpt]

theorem flagField_bool (k : String) (b : Bool) :
    flagField k (if b then (1 : Int) else 0) = boolFlagField k b := by
  cases b <;> simp [flagField, boolFlagField]

theorem parse_json_array_arr (xs : List Json) :
    parse_json_array (some (.arr xs)) = .arr xs := rfl

theorem beq_false_of_ne {α : Type} [BEq α] [LawfulBEq α] {a b : α} (h : ¬a = b) :
    (a == b) = false :=
  beq_eq_false_iff_ne.mpr h

theorem isEmpty_false_of_ne {α : Type} {l : List α} (h : ¬l = []) :
    l.isEmpty = false := by
  cases l with
  | nil => exact absurd rfl h
  | cons x xs => rfl

/-! ## Task entity round trip -/

theorem taskToRow_render (t : TaskE) (h : t.wf = true) :
    taskToRow (renderTask t) =
      { id := t.id, title := t.title, status := t.status,
        priority := t.priority, taskMode := t.taskMode, startTime := t.startTime,
        dueDate := t.dueDate, recurrence := t.recurrence, pushCount := t.pushCount,
        tags := .arr t.tags, contexts := .arr t.contexts,
        checklist := t.checklist, description := t.description,
        attachments := t.attachments, location := t.location,
        projectId := t.projectId, sectionId := t.sectionId, areaId := t.areaId,
        orderNum := t.orderNum,
        isFocusedToday := if t.isFocusedToday then 1 else 0,
        timeEstimate := t.timeEstimate, reviewAt := t.reviewAt,
        completedAt := t.completedAt, rev := t.rev, revBy := t.revBy,
        createdAt := t.createdAt, updatedAt := t.updatedAt,
        deletedAt := t.deletedAt, purgedAt := t.purgedAt } := by
  simp only [TaskE.wf, Bool.and_eq_true] at h
  obtain ⟨⟨⟨⟨⟨h1, h2⟩, h3⟩, h4⟩, h5⟩, h6⟩ := h
  simp [taskToRow, renderTask, Json.get, lookup_append, lookup_optStrField,
        lookup_optNumField, lookup_optJsonValField, lookup_boolFlagField,
        Json.lookup, asStr_str, json_str, json_str_or_default, asStr_map_str,
        asI64_map_num, asBool_flag, h1, h2, h3]

theorem task_round (t : TaskE) (h : t.wf = true) :
    row_to_task_value (taskToRow (renderTask t)) = renderTask t := by
  rw [taskToRow_render t h]
  simp only [TaskE.wf, Bool.and_eq_true] at h
  obtain ⟨⟨⟨⟨⟨h1, h2⟩, h3⟩, h4⟩, h5⟩, h6⟩ := h
  simp [row_to_task_value, renderTask, parse_json_array_arr,
        optJsonField_parse, flagField_bool, h4, h5, h6]

theorem asI64_num (n : Int) (h : i64Ok n = true) : Json.asI64 (.num n) = some n := by
  simp only [i64Ok, Bool.and_eq_true, decide_eq_true_eq] at h
  norm_num at h
  simp [Json.asI64, h.1, h.2]

/-! ## Project, area and section entity round trips -/

theorem projectToRow_render (p : ProjectE) (h : p.wf = true) :
    projectToRow (renderProject p) =
      { id := p.id, title := p.title, status := p.status, color := p.color,
        orderNum := p.order, tagIds := .arr p.tagIds,
        isSequential := if p.isSequential then 1 else 0,
        isFocused := if p.isFocused then 1 else 0,
        supportNotes := p.supportNotes, attachments := p.attachments,
        reviewAt := p.reviewAt, areaId := p.areaId, areaTitle := p.areaTitle,
        rev := p.rev, revBy := p.revBy,
        createdAt := p.createdAt, updatedAt := p.updatedAt,
        deletedAt := p.deletedAt } := by
  simp only [ProjectE.wf, Bool.and_eq_true] at h
  obtain ⟨⟨h1, h2⟩, h3⟩ := h
  simp [projectToRow, renderProject, Json.get, lookup_append, lookup_optStrField,
        lookup_optNumField, lookup_optJsonValField, lookup_boolFlagField,
        Json.lookup, asStr_str, json_str, json_str_or_default, asStr_map_str,
        asI64_map_num, asBool_flag, h1, h2]

theorem project_round (p : ProjectE) (h : p.wf = true) :
    row_to_project_value (projectToRow (renderProject p)) = renderProject p := by
  rw [projectToRow_render p h]
  simp only [ProjectE.wf, Bool.and_eq_true] at h
  obtain ⟨⟨h1, h2⟩, h3⟩ := h
  simp [row_to_project_value, renderProject, parse_json_array_arr,
        optJsonField_parse, flagField_bool, h3]

theorem areaToRow_render (a : AreaE) (h : a.wf = true) :
    areaToRow (renderArea a) =
      { id := a.id, name := a.name, color := a.color, icon := a.icon,
        orderNum := a.order, deletedAt := a.deletedAt, rev := a.rev,
        revBy := a.revBy, createdAt := a.createdAt, updatedAt := a.updatedAt } := by
  simp only [AreaE.wf, Bool.and_eq_true] at h
  obtain ⟨h1, h2⟩ := h
  simp [areaToRow, renderArea, Json.get, lookup_append, lookup_optStrField,
        lookup_optNumField, Json.lookup, asStr_str, asStr_map_str,
        asI64_map_num, asI64_num, h1, h2]

theorem area_round (a : AreaE) (h : a.wf = true) :
    row_to_area_value (areaToRow (renderArea a)) = renderArea a := by
  rw [areaToRow_render a h]
  simp [row_to_area_value, renderArea]

theorem sectionToRow_render (s : SectionE) (h : s.wf = true) :
    sectionToRow (renderSection s) =
      { id := s.id, projectId := s.projectId, title := s.title,
        description := s.description, orderNum := s.order,
        isCollapsed := if s.isCollapsed then 1 else 0,
        rev := s.rev, revBy := s.revBy,
        createdAt := s.createdAt, updatedAt := s.updatedAt,
        deletedAt := s.deletedAt } := by
  simp only [SectionE.wf, Bool.and_eq_true] at h
  obtain ⟨h1, h2⟩ := h
  simp [sectionToRow, renderSection, Json.get, lookup_append, lookup_optStrField,
        lookup_optNumField, lookup_boolFlagField, Json.lookup, asStr_str,
        asStr_map_str, asI64_map_num, asBool_flag, h1, h2]

theorem section_round (s : SectionE) (h : s.wf = true) :
    row_to_section_value (sectionToRow (renderSection s)) = renderSection s := by
  rw [sectionToRow_render s h]
  simp [row_to_section_value, renderSection, flagField_bool]

/-! ## Bulk insert lemmas -/

theorem foldlM_insertTask {α : Type} (ts : List α) (enc : α → TaskRow) (db : DB)
    (h : ((db.tasks ++ ts.map enc).map TaskRow.id).Nodup) :
    List.foldlM (fun db t => insertTaskRow db (enc t)) db ts =
      .ok { db with tasks := db.tasks ++ ts.map enc,
                    tasksFts := db.tasksFts ++ (ts.map enc).map taskFtsOf } := by
  induction ts generalizing db with
  | nil =>
    simp only [List.map_nil, List.append_nil, List.foldlM_nil]
    rfl
  | cons t ts ih =>
    have hmem : ∀ x ∈ db.tasks, ¬x.id = (enc t).id := by
      rw [List.map_cons, List.map_append, List.map_cons, List.nodup_append] at h
      intro x hx heq
      exact h.2.2 (List.mem_map_of_mem TaskRow.id hx) (by simp [heq])
    have hd : (db.tasks.any fun x => x.id = (enc t).id) = false := by
      simp only [List.any_eq_false, decide_eq_true_eq]
      exact hmem
    have hstep : insertTaskRow db (enc t) =
        .ok { db with tasks := db.tasks ++ [enc t],
                      tasksFts := db.tasksFts ++ [taskFtsOf (enc t)] } := by
      simp [insertTaskRow, hd]
    have hih := ih { db with tasks := db.tasks ++ [enc t],
                             tasksFts := db.tasksFts ++ [taskFtsOf (enc t)] }
      (by simpa [List.append_assoc] using h)
    rw [List.map_cons, List.foldlM_cons, hstep]
    simp only [Bind.bind, Except.bind]
    rw [hih]
    simp [List.append_assoc]

theorem foldlM_insertProject {α : Type} (ps : List α) (enc : α → ProjectRow) (db : DB)
    (h : ((db.projects ++ ps.map enc).map ProjectRow.id).Nodup) :
    List.foldlM (fun db p => insertProjectRow db (enc p)) db ps =
      .ok { db with projects := db.projects ++ ps.map enc,
                    projectsFts := db.projectsFts ++ (ps.map enc).map projectFtsOf } := by
  induction ps generalizing db with
  | nil =>
    simp only [List.map_nil, List.append_nil, List.foldlM_nil]
    rfl
  | cons p ps ih =>
    have hmem : ∀ x ∈ db.projects, ¬x.id = (enc p).id := by
      rw [List.map_cons, List.map_append, List.map_cons, List.nodup_append] at h
      intro x hx heq
      exact h.2.2 (List.mem_map_of_mem ProjectRow.id hx) (by simp [heq])
    have hd : (db.projects.any fun x => x.id = (enc p).id) = false := by
      simp only [List.any_eq_false, decide_eq_true_eq]
      exact hmem
    have hstep : insertProjectRow db (enc p) =
        .ok { db with projects := db.projects ++ [enc p],
                      projectsFts := db.projectsFts ++ [projectFtsOf (enc p)] } := by
      simp [insertProjectRow, hd]
    have hih := ih { db with projects := db.projects ++ [enc p],
                             projectsFts := db.projectsFts ++ [projectFtsOf (enc p)] }
      (by simpa [List.append_assoc] using h)
    rw [List.map_cons, List.foldlM_cons, hstep]
    simp only [Bind.bind, Except.bind]
    rw [hih]
    simp [List.append_assoc]

theorem foldlM_insertArea {α : Type} (as : List α) (enc : α → AreaRow) (db : DB)
    (h : ((db.areas ++ as.map enc).map AreaRow.id).Nodup) :
    List.foldlM (fun db a => insertAreaRow db (enc a)) db as =
      .ok { db with areas := db.areas ++ as.map enc } := by
  induction as generalizing db with
  | nil =>
    simp only [List.map_nil, List.append_nil, List.foldlM_nil]
    rfl
  | cons a as ih =>
    have hmem : ∀ x ∈ db.areas, ¬x.id = (enc a).id := by
      rw [List.map_cons, List.map_append, List.map_cons, List.nodup_append] at h
      intro x hx heq
      exact h.2.2 (List.mem_map_of_mem AreaRow.id hx) (by simp [heq])
    have hd : (db.areas.any fun x => x.id = (enc a).id) = false := by
      simp only [List.any_eq_false, decide_eq_true_eq]
      exact hmem
    have hstep : insertAreaRow db (enc a) =
        .ok { db with areas := db.areas ++ [enc a] } := by
      simp [insertAreaRow, hd]
    have hih := ih { db with areas := db.areas ++ [enc a] }
      (by simpa [List.append_assoc] using h)
    rw [List.map_cons, List.foldlM_cons, hstep]
    simp only [Bind.bind, Except.bind]
    rw [hih]
    simp [List.append_assoc]

theorem foldlM_insertSection {α : Type} (ss : List α) (enc : α → SectionRow) (db : DB)
    (h : ((db.sections ++ ss.map enc).map SectionRow.id).Nodup) :
    List.foldlM (fun db s => insertSectionRow db (enc s)) db ss =
      .ok { db with sections := db.sections ++ ss.map enc } := by
  induction ss generalizing db with
  | nil =>
    simp only [List.map_nil, List.append_nil, List.foldlM_nil]
    rfl
  | cons s0 ss ih =>
    have hmem : ∀ x ∈ db.sections, ¬x.id = (enc s0).id := by
      rw [List.map_cons, List.map_append, List.map_cons, List.nodup_append] at h
      intro x hx heq
      exact h.2.2 (List.mem_map_of_mem SectionRow.id hx) (by simp [heq])
    have hd : (db.sections.any fun x => x.id = (enc s0).id) = false := by
      simp only [List.any_eq_false, decide_eq_true_eq]
      exact hmem
    have hstep : insertSectionRow db (enc s0) =
        .ok { db with sections := db.sections ++ [enc s0] } := by
      simp [insertSectionRow, hd]
    have hih := ih { db with sections := db.sections ++ [enc s0] }
      (by simpa [List.append_assoc] using h)
    rw [List.map_cons, List.foldlM_cons, hstep]
    simp only [Bind.bind, Except.bind]
    rw [hih]
    simp [List.append_assoc]

/-! ## The whole-document replace on a stored-normal-form document -/

theorem migrateTx_renderDoc (d : DocE) (h : d.wf) :
    migrateTx DB.empty (renderDoc d) = .ok
      { tasks := d.tasks.map (fun t => taskToRow (renderTask t)),
        projects := d.projects.map (fun p => projectToRow (renderProject p)),
        areas := d.areas.map (fun a => areaToRow (renderArea a)),
        sections := d.sections.map (fun s => sectionToRow (renderSection s)),
        settings := some (.obj d.settings),
        tasksFts := (d.tasks.map (fun t => taskToRow (renderTask t))).map taskFtsOf,
        projectsFts :=
          (d.projects.map (fun p => projectToRow (renderProject p))).map projectFtsOf } := by
  obtain ⟨ht, hnt, hp, hnp, ha, hna, hs, hns⟩ := h
  have hg1 : (renderDoc d).get "tasks" = some (.arr (d.tasks.map renderTask)) := by
    simp [renderDoc, Json.get, Json.lookup]
  have hg2 : (renderDoc d).get "projects" = some (.arr (d.projects.map renderProject)) := by
    simp [renderDoc, Json.get, Json.lookup]
  have hg3 : (renderDoc d).get "areas" = some (.arr (d.areas.map renderArea)) := by
    simp [renderDoc, Json.get, Json.lookup]
  have hg4 : (renderDoc d).get "sections" = some (.arr (d.sections.map renderSection)) := by
    simp [renderDoc, Json.get, Json.lookup]
  have hg5 : (renderDoc d).get "settings" = some (.obj d.settings) := by
    simp [renderDoc, Json.get, Json.lookup]
  have htid : d.tasks.map (fun t => (taskToRow (renderTask t)).id) = d.tasks.map TaskE.id :=
    List.map_congr_left (fun t hmem => by rw [taskToRow_render t (ht t hmem)])
  have hpid : d.projects.map (fun p => (projectToRow (renderProject p)).id)
      = d.projects.map ProjectE.id :=
    List.map_congr_left (fun p hmem => by rw [projectToRow_render p (hp p hmem)])
  have haid : d.areas.map (fun a => (areaToRow (renderArea a)).id) = d.areas.map AreaE.id :=
    List.map_congr_left (fun a hmem => by rw [areaToRow_render a (ha a hmem)])
  have hsid : d.sections.map (fun s => (sectionToRow (renderSection s)).id)
      = d.sections.map SectionE.id :=
    List.map_congr_left (fun s hmem => by rw [sectionToRow_render s (hs s hmem)])
  unfold migrateTx
  rw [hg1, hg2, hg3, hg4, hg5]
  simp only [Json.asArray, Option.some_bind, Option.getD_some, deleteAllTasks,
             deleteAllProjects, DB.empty, List.filter_nil, List.all_nil]
  rw [foldlM_insertTask (d.tasks.map renderTask) taskToRow _
      (by simpa [List.map_map, Function.comp_def, htid] using hnt)]
  simp only [Bind.bind, Except.bind, List.nil_append]
  rw [foldlM_insertProject (d.projects.map renderProject) projectToRow _
      (by simpa [List.map_map, Function.comp_def, hpid] using hnp)]
  simp only [Bind.bind, Except.bind, List.nil_append]
  rw [foldlM_insertArea (d.areas.map renderArea) areaToRow _
      (by simpa [List.map_map, Function.comp_def, haid] using hna)]
  simp only [Bind.bind, Except.bind, List.nil_append]
  rw [foldlM_insertSection (d.sections.map renderSection) sectionToRow _
      (by simpa [List.map_map, Function.comp_def, hsid] using hns)]
  simp only [json_str_or_default, json_str, Option.getD_some, List.map_map,
             Function.comp_def]
  rfl

/-- C1 (amended), entity-level consequence packaged at document level: a
whole-document replace of a stored-normal-form document commits, and the
subsequent full read returns the document unchanged. -/
theorem relational_round_trip (d : DocE) (h : d.wf) :
    (migrate_json_to_sqlite DB.empty (renderDoc d)).2 = none ∧
    read_sqlite_data (migrate_json_to_sqlite DB.empty (renderDoc d)).1 = renderDoc d := by
  have key := migrateTx_renderDoc d h
  obtain ⟨ht, hnt, hp, hnp, ha, hna, hs, hns⟩ := h
  rw [migrate_json_to_sqlite, key]
  refine ⟨rfl, ?_⟩
  simp only [read_sqlite_data, renderDoc, List.map_map, Function.comp_def]
  have e1 : d.tasks.map (fun t => row_to_task_value (taskToRow (renderTask t)))
      = d.tasks.map renderTask :=
    List.map_congr_left (fun t hmem => task_round t (ht t hmem))
  have e2 : d.projects.map (fun p => row_to_project_value (projectToRow (renderProject p)))
      = d.projects.map renderProject :=
    List.map_congr_left (fun p hmem => project_round p (hp p hmem))
  have e3 : d.areas.map (fun a => row_to_area_value (areaToRow (renderArea a)))
      = d.areas.map renderArea :=
    List.map_congr_left (fun a hmem => area_round a (ha a hmem))
  have e4 : d.sections.map (fun s => row_to_section_value (sectionToRow (renderSection s)))
      = d.sections.map renderSection :=
    List.map_congr_left (fun s hmem => section_round s (hs s hmem))
  rw [e1, e2, e3, e4]
  simp [parse_json_value, Json.asObject]

/-- C1 witness: the stored-normal-form document with fully populated and fully
bare entities is well-formed and survives the round trip unchanged. -/
theorem relational_round_trip_witness :
    roundTripDoc.wf ∧
    read_sqlite_data (migrate_json_to_sqlite DB.empty (renderDoc roundTripDoc)).1
      = renderDoc roundTripDoc :=
  ⟨by decide, (relational_round_trip roundTripDoc (by decide)).2⟩

/-- C1 counterexample: a legal minimal document (task without a `tags` key)
does not come back equal to itself — the read adds `tags`/`contexts` keys. -/
theorem relational_round_trip_counterexample :
    Json.canon (read_sqlite_data (migrate_json_to_sqlite DB.empty minimalTaskDoc).1)
      ≠ Json.canon minimalTaskDoc := by
  decide

/-! ## Sync mirror round trip -/

/-- C2 (amended): writing a document to the sync mirror and reading it back
yields `normalize_sync_value` of the document — which synthesizes
`tasks`/`projects`/`areas` as empty arrays and `settings` as an empty object
when they are missing or wrongly typed, and replaces a non-object document
with the empty document; on a document whose four entries are present and
well-typed the normalization is the identity. -/
theorem sync_mirror_round_trip (data : Json) :
    sync_round_trip data = .ok (normalize_sync_value data) ∧
    (goodSyncDoc data = true → normalize_sync_value data = data) := by
  constructor
  · simp [sync_round_trip, read_sync_file, write_sync_file_env, read_json_with_retries,
          retryLoop]
  · intro hg
    cases data with
    | obj m =>
      simp only [goodSyncDoc, Bool.and_eq_true] at hg
      obtain ⟨⟨⟨h1, h2⟩, h3⟩, h4⟩ := hg
      simp [normalize_sync_value, h1, h2, h3, h4]
    | null => simp [goodSyncDoc] at hg
    | bool b => simp [goodSyncDoc] at hg
    | num n => simp [goodSyncDoc] at hg
    | str s => simp [goodSyncDoc] at hg
    | arr xs => simp [goodSyncDoc] at hg

/-- C2 witness: the well-typed empty document round-trips to itself. -/
theorem sync_mirror_round_trip_witness :
    goodSyncDoc emptySyncDoc = true ∧ sync_round_trip emptySyncDoc = .ok emptySyncDoc := by
  refine ⟨by decide, ?_⟩
  have h := sync_mirror_round_trip emptySyncDoc
  rw [h.1, h.2 (by decide)]

/-- C2 counterexample: on a document whose `tasks` entry is present but not an
array, the round trip does not agree with a normalization that only
synthesizes missing keys — the code replaces the wrongly typed entry. -/
theorem sync_mirror_round_trip_counterexample :
    Except.map Json.canon (sync_round_trip numberTasksDoc)
      ≠ Except.map Json.canon (.ok (normalize_per_claim numberTasksDoc)) := by
  decide

/-! ## Transactionality of the whole-document replace -/

/-- C3: if the whole-document replace surfaces an error, the transaction was
rolled back and the store still holds the pre-call state. -/
theorem replace_rolls_back (db : DB) (data : Json) (e : String)
    (h : (migrate_json_to_sqlite db data).2 = some e) :
    (migrate_json_to_sqlite db data).1 = db := by
  unfold migrate_json_to_sqlite at h ⊢
  cases hm : migrateTx db data <;> simp [hm] at h ⊢

/-- C3 witness: a document with a duplicated task id makes the second insert
violate the primary key; the store still holds its previous row. -/
theorem replace_rolls_back_witness :
    (migrate_json_to_sqlite oneTaskDB dupIdDoc).2 = some "UNIQUE constraint failed: tasks.id"
      ∧ (migrate_json_to_sqlite oneTaskDB dupIdDoc).1 = oneTaskDB :=
  ⟨by decide,
   replace_rolls_back oneTaskDB dupIdDoc "UNIQUE constraint failed: tasks.id" (by decide)⟩

/-! ## Tokenless search -/

/-- C5: a search input whose tokenization yields no tokens returns empty task
and project lists, for every database and every `MATCH` oracle — no error and
no all-rows result. -/
theorem no_token_search_empty (db : DB) (matchT : String → TaskFtsRow → Bool)
    (matchP : String → ProjectFtsRow → Bool) (q : String)
    (h : fts_tokens q = []) :
    search_fts db matchT matchP q = ⟨[], []⟩ := by
  simp [search_fts, build_fts_query, h]

/-- C5 witness: `""` and `"   "` yield no tokens and return empty results on a
populated database under an all-matching oracle. -/
theorem no_token_search_empty_witness :
    fts_tokens "" = [] ∧ fts_tokens "   " = []
      ∧ search_fts mixedDB matchAllT matchAllP "" = ⟨[], []⟩
      ∧ search_fts mixedDB matchAllT matchAllP "   " = ⟨[], []⟩ :=
  ⟨by decide, by decide,
   no_token_search_empty mixedDB matchAllT matchAllP "" (by decide),
   no_token_search_empty mixedDB matchAllT matchAllP "   " (by decide)⟩

/-! ## Missing sync files -/

/-- C10: when neither the primary mirror file nor the legacy-named file
exists, the sync read returns the empty default document, not an error. -/
theorem read_missing_defaults (env : SyncReadEnv)
    (h1 : env.primaryExists = false) (h2 : env.legacyExists = false) :
    read_sync_file env = .ok emptySyncDoc := by
  simp [read_sync_file, h1, h2]

/-- C10 witness: a directory with neither file (even with a stray backup)
returns the empty default document. -/
theorem read_missing_defaults_witness :
    read_sync_file nothingThereEnv = .ok emptySyncDoc :=
  read_missing_defaults nothingThereEnv rfl rfl

/-! ## Task query semantics -/

/-- C6: the pushed `WHERE` clauses combine conjunctively — the query result is
the table filtered by the conjunction of soft-delete exclusion (default on),
archived exclusion (default on), status equality (unless `all`), status
exclusion (unless empty) and project-id equality — and the empty filter
returns exactly the non-deleted, non-archived tasks. -/
theorem query_clauses_conjunction (db : DB) (o : TaskQueryOptions) :
    query_tasks db o = (db.tasks.filter (fun t =>
        (o.include_deleted.getD false || t.deletedAt.isNone)
        && (o.include_archived.getD false || t.status != "archived")
        && (match o.status with
            | some s => s == "all" || t.status == s
            | none => true)
        && (match o.exclude_statuses with
            | some xs => xs.isEmpty || !(xs.contains t.status)
            | none => true)
        && (match o.project_id with
            | some pid => t.projectId == some pid
            | none => true))).map row_to_task_value
    ∧ query_tasks db ⟨none, none, none, none, none⟩
        = (db.tasks.filter (fun t => t.deletedAt.isNone && t.status != "archived")).map
            row_to_task_value := by
  constructor
  · unfold query_tasks
    congr 1
    apply List.filter_congr
    intro t ht
    rcases o with ⟨st, pid, exs, incD, incA⟩
    simp only [task_where_clauses]
    cases hD : incD.getD false <;> cases hA : incA.getD false <;>
      rcases st with _ | s <;> rcases exs with _ | xs <;> rcases pid with _ | p <;>
      (try by_cases hs : s = "all") <;> (try by_cases hx : xs = []) <;>
      simp_all [List.all_append, Bool.and_assoc, beq_false_of_ne, isEmpty_false_of_ne]
  · simp [query_tasks, task_where_clauses]

/-! ## Soft-deleted entities -/

/-- C7: every result of the default task query and of search comes from a row
with `deletedAt` NULL (a soft-deleted row never produces a result), while the
full-document read exposes every row, soft-deleted ones included. -/
theorem soft_deleted_visibility (db : DB) (matchT : String → TaskFtsRow → Bool)
    (matchP : String → ProjectFtsRow → Bool) (q : String) :
    (∀ v ∈ query_tasks db ⟨none, none, none, none, none⟩,
        ∃ u ∈ db.tasks, u.deletedAt = none ∧ v = row_to_task_value u)
    ∧ (∀ v ∈ (search_fts db matchT matchP q).tasks,
        ∃ u ∈ db.tasks, u.deletedAt = none ∧ v = row_to_task_value u)
    ∧ (∀ v ∈ (search_fts db matchT matchP q).projects,
        ∃ u ∈ db.projects, u.deletedAt = none ∧ v = row_to_project_value u)
    ∧ (read_sqlite_data db).get "tasks" = some (.arr (db.tasks.map row_to_task_value))
    ∧ (read_sqlite_data db).get "projects"
        = some (.arr (db.projects.map row_to_project_value)) := by
  refine ⟨?_, ?_, ?_, ?_, ?_⟩
  · intro v hv
    unfold query_tasks at hv
    obtain ⟨u, hu, rfl⟩ := List.mem_map.mp hv
    obtain ⟨humem, hpred⟩ := List.mem_filter.mp hu
    refine ⟨u, humem, ?_, rfl⟩
    simp [task_where_clauses, List.all_append, Option.isNone_iff_eq_none] at hpred
    exact hpred.1
  · intro v hv
    unfold search_fts at hv
    cases hb : build_fts_query q with
    | none => rw [hb] at hv; simp at hv
    | some fq =>
      rw [hb] at hv
      simp only [List.mem_flatMap] at hv
      obtain ⟨f, hf, hv⟩ := hv
      obtain ⟨u, hu, rfl⟩ := List.mem_map.mp hv
      obtain ⟨humem, hpred⟩ := List.mem_filter.mp hu
      simp only [Bool.and_eq_true] at hpred
      exact ⟨u, humem, Option.isNone_iff_eq_none.mp hpred.2, rfl⟩
  · intro v hv
    unfold search_fts at hv
    cases hb : build_fts_query q with
    | none => rw [hb] at hv; simp at hv
    | some fq =>
      rw [hb] at hv
      simp only [List.mem_flatMap] at hv
      obtain ⟨f, hf, hv⟩ := hv
      obtain ⟨u, hu, rfl⟩ := List.mem_map.mp hv
      obtain ⟨humem, hpred⟩ := List.mem_filter.mp hu
      simp only [Bool.and_eq_true] at hpred
      exact ⟨u, humem, Option.isNone_iff_eq_none.mp hpred.2, rfl⟩
  · simp [read_sqlite_data, Json.get, Json.lookup]
  · simp [read_sqlite_data, Json.get, Json.lookup]

/-- C7 witness: on a database with one live and one soft-deleted task, the
search hit for `alpha` comes from the live row, and the soft-deleted rows are
still present in the full-document read. -/
theorem soft_deleted_visibility_witness :
    (∃ u ∈ mixedDB.tasks, u.deletedAt = none ∧
      row_to_task_value (taskToRow (.obj [("id", .str "t1"), ("title", .str "alpha beta"),
                                          ("status", .str "inbox")]))
        = row_to_task_value u)
    ∧ (read_sqlite_data mixedDB).get "tasks"
        = some (.arr (mixedDB.tasks.map row_to_task_value)) :=
  ⟨(soft_deleted_visibility mixedDB matchAllT matchAllP "alpha").2.1 _ (by decide),
   (soft_deleted_visibility mixedDB matchAllT matchAllP "alpha").2.2.2.1⟩

/-! ## Search index contents -/

theorem except_bind_ok {ε α β : Type} (x : Except ε α) (f : α → Except ε β) (b : β)
    (h : x >>= f = .ok b) : ∃ a, x = .ok a ∧ f a = .ok b := by
  cases x with
  | error e => simp [Bind.bind, Except.bind] at h
  | ok a => exact ⟨a, rfl, by simpa [Bind.bind, Except.bind] using h⟩

theorem foldlM_insertTask_shape {α : Type} (ts : List α) (enc : α → TaskRow) (db db' : DB)
    (h : List.foldlM (fun db t => insertTaskRow db (enc t)) db ts = .ok db') :
    db' = { db with tasks := db.tasks ++ ts.map enc,
                    tasksFts := db.tasksFts ++ (ts.map enc).map taskFtsOf } := by
  induction ts generalizing db with
  | nil =>
    simp only [List.foldlM_nil] at h
    cases h
    simp only [List.map_nil, List.append_nil]
  | cons t ts ih =>
    rw [List.foldlM_cons] at h
    unfold insertTaskRow at h
    by_cases hd : (db.tasks.any fun x => x.id = (enc t).id) = true
    · simp [hd, Bind.bind, Except.bind] at h
    · rw [Bool.not_eq_true] at hd
      simp only [hd, Bool.false_eq_true, if_false, Bind.bind, Except.bind] at h
      have := ih _ h
      simp [this, List.append_assoc]

theorem foldlM_insertProject_shape {α : Type} (ps : List α) (enc : α → ProjectRow)
    (db db' : DB)
    (h : List.foldlM (fun db p => insertProjectRow db (enc p)) db ps = .ok db') :
    db' = { db with projects := db.projects ++ ps.map enc,
                    projectsFts := db.projectsFts ++ (ps.map enc).map projectFtsOf } := by
  induction ps generalizing db with
  | nil =>
    simp only [List.foldlM_nil] at h
    cases h
    simp only [List.map_nil, List.append_nil]
  | cons p ps ih =>
    rw [List.foldlM_cons] at h
    unfold insertProjectRow at h
    by_cases hd : (db.projects.any fun x => x.id = (enc p).id) = true
    · simp [hd, Bind.bind, Except.bind] at h
    · rw [Bool.not_eq_true] at hd
      simp only [hd, Bool.false_eq_true, if_false, Bind.bind, Except.bind] at h
      have := ih _ h
      simp [this, List.append_assoc]

theorem foldlM_insertArea_shape {α : Type} (as : List α) (enc : α → AreaRow) (db db' : DB)
    (h : List.foldlM (fun db a => insertAreaRow db (enc a)) db as = .ok db') :
    db' = { db with areas := db.areas ++ as.map enc } := by
  induction as generalizing db with
  | nil =>
    simp only [List.foldlM_nil] at h
    cases h
    simp only [List.map_nil, List.append_nil]
  | cons a as ih =>
    rw [List.foldlM_cons] at h
    unfold insertAreaRow at h
    by_cases hd : (db.areas.any fun x => x.id = (enc a).id) = true
    · simp [hd, Bind.bind, Except.bind] at h
    · rw [Bool.not_eq_true] at hd
      simp only [hd, Bool.false_eq_true, if_false, Bind.bind, Except.bind] at h
      have := ih _ h
      simp [this, List.append_assoc]

theorem foldlM_insertSection_shape {α : Type} (ss : List α) (enc : α → SectionRow)
    (db db' : DB)
    (h : List.foldlM (fun db s => insertSectionRow db (enc s)) db ss = .ok db') :
    db' = { db with sections := db.sections ++ ss.map enc } := by
  induction ss generalizing db with
  | nil =>
    simp only [List.foldlM_nil] at h
    cases h
    simp only [List.map_nil, List.append_nil]
  | cons s0 ss ih =>
    rw [List.foldlM_cons] at h
    unfold insertSectionRow at h
    by_cases hd : (db.sections.any fun x => x.id = (enc s0).id) = true
    · simp [hd, Bind.bind, Except.bind] at h
    · rw [Bool.not_eq_true] at hd
      simp only [hd, Bool.false_eq_true, if_false, Bind.bind, Except.bind] at h
      have := ih _ h
      simp [this, List.append_assoc]

theorem deleteAllTasks_fts_nil (db : DB)
    (hT : db.tasksFts.all (fun f => db.tasks.any (fun t => t.id = f.id)) = true) :
    (deleteAllTasks db).tasksFts = [] := by
  unfold deleteAllTasks
  simp only
  rw [List.filter_eq_nil_iff]
  intro f hf
  have hany := (List.all_eq_true.mp hT) f hf
  simp only [List.any_eq_true, decide_eq_true_eq] at hany
  obtain ⟨t, ht, hid⟩ := hany
  simp only [List.all_eq_true, decide_eq_true_eq, not_forall]
  exact ⟨t, ht, by simp [hid]⟩

theorem deleteAllProjects_fts_nil (db : DB)
    (hP : db.projectsFts.all (fun f => db.projects.any (fun p => p.id = f.id)) = true) :
    (deleteAllProjects db).projectsFts = [] := by
  unfold deleteAllProjects
  simp only
  rw [List.filter_eq_nil_iff]
  intro f hf
  have hany := (List.all_eq_true.mp hP) f hf
  simp only [List.any_eq_true, decide_eq_true_eq] at hany
  obtain ⟨p, hp, hid⟩ := hany
  simp only [List.all_eq_true, decide_eq_true_eq, not_forall]
  exact ⟨p, hp, by simp [hid]⟩

theorem task_ids_iff (tasks : List TaskRow) (fts : List TaskFtsRow)
    (hm : (tasks.filter (fun t => !fts.any (fun f => f.id == t.id))).length = 0)
    (hx : (fts.filter (fun f => !tasks.any (fun t => t.id == f.id))).length = 0)
    (i : String) :
    i ∈ fts.map TaskFtsRow.id ↔ i ∈ tasks.map TaskRow.id := by
  rw [List.length_eq_zero, List.filter_eq_nil_iff] at hm hx
  constructor
  · intro hi
    obtain ⟨f, hf, rfl⟩ := List.mem_map.mp hi
    have hxf := hx f hf
    simp [List.any_eq_true] at hxf
    obtain ⟨t, ht, hid⟩ := hxf
    exact List.mem_map.mpr ⟨t, ht, hid⟩
  · intro hi
    obtain ⟨t, ht, rfl⟩ := List.mem_map.mp hi
    have hmt := hm t ht
    simp [List.any_eq_true] at hmt
    obtain ⟨f, hf, hid⟩ := hmt
    exact List.mem_map.mpr ⟨f, hf, hid⟩

theorem project_ids_iff (projects : List ProjectRow) (fts : List ProjectFtsRow)
    (hm : (projects.filter (fun p => !fts.any (fun f => f.id == p.id))).length = 0)
    (hx : (fts.filter (fun f => !projects.any (fun p => p.id == f.id))).length = 0)
    (i : String) :
    i ∈ fts.map ProjectFtsRow.id ↔ i ∈ projects.map ProjectRow.id := by
  rw [List.length_eq_zero, List.filter_eq_nil_iff] at hm hx
  constructor
  · intro hi
    obtain ⟨f, hf, rfl⟩ := List.mem_map.mp hi
    have hxf := hx f hf
    simp [List.any_eq_true] at hxf
    obtain ⟨p, hp, hid⟩ := hxf
    exact List.mem_map.mpr ⟨p, hp, hid⟩
  · intro hi
    obtain ⟨p, hp, rfl⟩ := List.mem_map.mp hi
    have hmp := hm p hp
    simp [List.any_eq_true] at hmp
    obtain ⟨f, hf, hid⟩ := hmp
    exact List.mem_map.mpr ⟨f, hf, hid⟩

theorem ensureTaskFts_proj (db : DB) (force : Bool) :
    (ensureTaskFts db force).tasks = db.tasks
      ∧ (ensureTaskFts db force).projects = db.projects
      ∧ (ensureTaskFts db force).projectsFts = db.projectsFts := by
  unfold ensureTaskFts
  simp only []
  split <;> exact ⟨rfl, rfl, rfl⟩

theorem ensureProjectFts_proj (db : DB) (force : Bool) :
    (ensureProjectFts db force).projects = db.projects
      ∧ (ensureProjectFts db force).tasks = db.tasks
      ∧ (ensureProjectFts db force).tasksFts = db.tasksFts := by
  unfold ensureProjectFts
  simp only []
  split <;> exact ⟨rfl, rfl, rfl⟩

theorem ensureTaskFts_ids (db : DB) (force : Bool) (i : String) :
    i ∈ (ensureTaskFts db force).tasksFts.map TaskFtsRow.id
      ↔ i ∈ (ensureTaskFts db force).tasks.map TaskRow.id := by
  unfold ensureTaskFts
  simp only []
  split
  · simp [List.map_map, Function.comp_def, taskFtsOf]
  · rename_i hc
    simp only [Bool.or_eq_true, not_or, decide_eq_true_eq] at hc
    exact task_ids_iff _ _ (by omega) (by omega) i

theorem ensureProjectFts_ids (db : DB) (force : Bool) (i : String) :
    i ∈ (ensureProjectFts db force).projectsFts.map ProjectFtsRow.id
      ↔ i ∈ (ensureProjectFts db force).projects.map ProjectRow.id := by
  unfold ensureProjectFts
  simp only []
  split
  · simp [List.map_map, Function.comp_def, projectFtsOf]
  · rename_i hc
    simp only [Bool.or_eq_true, not_or, decide_eq_true_eq] at hc
    exact project_ids_iff _ _ (by omega) (by omega) i

theorem ensure_ids (db : DB) (force : Bool) (i : String) :
    (i ∈ (ensure_fts_populated db force).tasksFts.map TaskFtsRow.id
      ↔ i ∈ (ensure_fts_populated db force).tasks.map TaskRow.id)
    ∧ (i ∈ (ensure_fts_populated db force).projectsFts.map ProjectFtsRow.id
      ↔ i ∈ (ensure_fts_populated db force).projects.map ProjectRow.id) := by
  unfold ensure_fts_populated
  constructor
  · rw [(ensureProjectFts_proj (ensureTaskFts db force) force).2.2,
        (ensureProjectFts_proj (ensureTaskFts db force) force).2.1]
    exact ensureTaskFts_ids db force i
  · exact ensureProjectFts_ids (ensureTaskFts db force) force i

/-- C4 (amended): after a completed whole-document replace (from a store
whose index entries all have a base row), the FTS index contains exactly the
ids of ALL rows of the base tables — soft-deleted rows included — and the
startup reconciliation sweep also leaves index id-sets equal to the full
base-table id-sets.  Soft-delete filtering happens at query time, not in the
index. -/
theorem fts_index_contents (db : DB) (data : Json) (db2 : DB)
    (hT : db.tasksFts.all (fun f => db.tasks.any (fun t => t.id = f.id)) = true)
    (hP : db.projectsFts.all (fun f => db.projects.any (fun p => p.id = f.id)) = true)
    (h : migrate_json_to_sqlite db data = (db2, none)) :
    db2.tasksFts.map TaskFtsRow.id = db2.tasks.map TaskRow.id
    ∧ db2.projectsFts.map ProjectFtsRow.id = db2.projects.map ProjectRow.id
    ∧ ∀ (db3 : DB) (force : Bool) (i : String),
        (i ∈ (ensure_fts_populated db3 force).tasksFts.map TaskFtsRow.id
          ↔ i ∈ (ensure_fts_populated db3 force).tasks.map TaskRow.id)
        ∧ (i ∈ (ensure_fts_populated db3 force).projectsFts.map ProjectFtsRow.id
          ↔ i ∈ (ensure_fts_populated db3 force).projects.map ProjectRow.id) := by
  have hm : migrateTx db data = .ok db2 := by
    unfold migrate_json_to_sqlite at h
    cases hmm : migrateTx db data with
    | error e => rw [hmm] at h; simp at h
    | ok a => rw [hmm] at h; simp at h; rw [h]
  have hTnil : List.filter (fun f => db.tasks.all fun t => t.id ≠ f.id) db.tasksFts = [] :=
    deleteAllTasks_fts_nil db hT
  have hPnil : List.filter (fun f => db.projects.all fun p => p.id ≠ f.id) db.projectsFts = [] :=
    deleteAllProjects_fts_nil db hP
  unfold migrateTx at hm
  simp only [] at hm
  obtain ⟨dbA, hA, hm⟩ := except_bind_ok _ _ _ hm
  obtain ⟨dbB, hB, hm⟩ := except_bind_ok _ _ _ hm
  obtain ⟨dbC, hC, hm⟩ := except_bind_ok _ _ _ hm
  obtain ⟨dbD, hD, hm⟩ := except_bind_ok _ _ _ hm
  have sA := foldlM_insertTask_shape _ taskToRow _ _ hA
  have sB := foldlM_insertProject_shape _ projectToRow _ _ hB
  have sC := foldlM_insertArea_shape _ areaToRow _ _ hC
  have sD := foldlM_insertSection_shape _ sectionToRow _ _ hD
  have hfin : db2 = { dbD with
      settings := some (json_str_or_default (data.get "settings") (.obj [])) } :=
    (Except.ok.inj hm).symm
  have hTm : ∀ f ∈ db.tasksFts, ∃ t ∈ db.tasks, t.id = f.id := by
    intro f hf
    have := List.all_eq_true.mp hT f hf
    simpa [List.any_eq_true] using this
  have hPm : ∀ f ∈ db.projectsFts, ∃ p ∈ db.projects, p.id = f.id := by
    intro f hf
    have := List.all_eq_true.mp hP f hf
    simpa [List.any_eq_true] using this
  refine ⟨?_, ?_, fun db3 force i => ensure_ids db3 force i⟩
  · rw [hfin, sD, sC, sB, sA]
    simp [deleteAllTasks, deleteAllProjects, List.map_map, Function.comp_def, taskFtsOf]
    exact hTm
  · rw [hfin, sD, sC, sB, sA]
    simp [deleteAllTasks, deleteAllProjects, List.map_map, Function.comp_def, projectFtsOf]
    exact hPm

/-- C4 witness: replacing an empty store with a document holding a
soft-deleted task and project leaves the index ids equal to the base ids. -/
theorem fts_index_contents_witness :
    (migrate_json_to_sqlite DB.empty softDeletedDoc).1.tasksFts.map TaskFtsRow.id
      = (migrate_json_to_sqlite DB.empty softDeletedDoc).1.tasks.map TaskRow.id
    ∧ (migrate_json_to_sqlite DB.empty softDeletedDoc).1.projectsFts.map ProjectFtsRow.id
      = (migrate_json_to_sqlite DB.empty softDeletedDoc).1.projects.map ProjectRow.id := by
  have h := fts_index_contents DB.empty softDeletedDoc
    (migrate_json_to_sqlite DB.empty softDeletedDoc).1 (by decide) (by decide) (by decide)
  exact ⟨h.1, h.2.1⟩

/-- C4 counterexample: after replacing an empty store with a document whose
only task and only project are soft-deleted, their ids ARE in the FTS index
although they are not among the non-deleted base ids — the claim that the
index holds exactly the non-deleted ids is false. -/
theorem fts_index_counterexample :
    (migrate_json_to_sqlite DB.empty softDeletedDoc).2 = none
    ∧ "t1" ∈ (migrate_json_to_sqlite DB.empty softDeletedDoc).1.tasksFts.map TaskFtsRow.id
    ∧ "t1" ∉ (((migrate_json_to_sqlite DB.empty softDeletedDoc).1.tasks.filter
          (fun t => t.deletedAt.isNone)).map TaskRow.id)
    ∧ "p1" ∈ (migrate_json_to_sqlite DB.empty softDeletedDoc).1.projectsFts.map
          ProjectFtsRow.id
    ∧ "p1" ∉ (((migrate_json_to_sqlite DB.empty softDeletedDoc).1.projects.filter
          (fun p => p.deletedAt.isNone)).map ProjectRow.id) := by
  decide

/-! ## Sync read protocol -/

/-- C8 (amended): the sync read makes up to 5 attempts on the primary file
with a deterministic growing backoff of `120 + 80·i` ms after attempt `i`;
a missing primary file falls back to the legacy-named file; exhausted primary
attempts fall back to the `.bak` sibling with a budget of 2 attempts; and when
everything fails the last primary error is surfaced. -/
theorem read_retry_protocol (env : SyncReadEnv) (e : Nat → String) (v : Json)
    (entropy : Nat → Nat) :
    (env.primaryExists = false → env.legacyExists = true →
        read_sync_file env = env.legacyRead.map normalize_sync_value)
    ∧ (env.primaryExists = true → env.primaryRead 0 = .ok v →
        read_sync_file env = .ok (normalize_sync_value v))
    ∧ (env.primaryExists = true → (∀ i, i < 5 → env.primaryRead i = .error (e i)) →
        env.backupExists = false → read_sync_file env = .error (e 4))
    ∧ (env.primaryExists = true → (∀ i, i < 5 → env.primaryRead i = .error (e i)) →
        env.backupExists = true → env.backupRead 0 = .error (e 5) →
        env.backupRead 1 = .ok v →
        read_sync_file env = .ok (normalize_sync_value v))
    ∧ (env.primaryExists = true → (∀ i, i < 5 → env.primaryRead i = .error (e i)) →
        env.backupExists = true → (∀ i, i < 2 → env.backupRead i = .error (e (5 + i))) →
        read_sync_file env = .error (e 4))
    ∧ read_retry_delays entropy 5 = [120, 200, 280, 360]
    ∧ read_retry_delays entropy 2 = [120] := by
  refine ⟨?_, ?_, ?_, ?_, ?_, ?_, ?_⟩
  · intro h1 h2
    simp [read_sync_file, h1, h2]
  · intro h1 h2
    simp [read_sync_file, h1, read_json_with_retries, retryLoop, h2]
  · intro h1 hp hb
    simp [read_sync_file, h1, read_json_with_retries, retryLoop,
          hp 0 (by norm_num), hp 1 (by norm_num), hp 2 (by norm_num),
          hp 3 (by norm_num), hp 4 (by norm_num), hb]
  · intro h1 hp hb hb0 hb1
    simp [read_sync_file, h1, read_json_with_retries, retryLoop,
          hp 0 (by norm_num), hp 1 (by norm_num), hp 2 (by norm_num),
          hp 3 (by norm_num), hp 4 (by norm_num), hb, hb0, hb1]
  · intro h1 hp hb hbs
    simp [read_sync_file, h1, read_json_with_retries, retryLoop,
          hp 0 (by norm_num), hp 1 (by norm_num), hp 2 (by norm_num),
          hp 3 (by norm_num), hp 4 (by norm_num), hb,
          hbs 0 (by norm_num), hbs 1 (by norm_num)]
  · rfl
  · rfl

/-- C8 witness: the legacy fallback, the all-fail last-error case, the backup
second-attempt rescue, and the concrete delay schedule. -/
theorem read_retry_protocol_witness :
    read_sync_file legacyOnlyEnv = legacyOnlyEnv.legacyRead.map normalize_sync_value
    ∧ read_sync_file allFailEnv = .error "primary last"
    ∧ read_sync_file backupSavesEnv = .ok (normalize_sync_value numberTasksDoc)
    ∧ read_retry_delays (fun _ => 0) 5 = [120, 200, 280, 360] := by
  refine ⟨?_, ?_, ?_, ?_⟩
  · exact (read_retry_protocol legacyOnlyEnv attemptErr numberTasksDoc (fun _ => 0)).1
      rfl rfl
  · have := (read_retry_protocol allFailEnv attemptErr numberTasksDoc
      (fun _ => 0)).2.2.1 rfl (fun i _ => rfl) rfl
    simpa [attemptErr] using this
  · exact (read_retry_protocol backupSavesEnv attemptErr numberTasksDoc
      (fun _ => 0)).2.2.2.1 rfl (fun i _ => rfl) rfl rfl rfl
  · exact (read_retry_protocol legacyOnlyEnv attemptErr numberTasksDoc
      (fun _ => 0)).2.2.2.2.2.1

/-- C8 counterexample: the backoff schedule consults no randomness source:
it is the same for every entropy oracle, so the backoff is deterministic,
not randomized. -/
theorem read_retry_counterexample :
    ¬ ∃ g₁ g₂ : Nat → Nat, read_retry_delays g₁ 5 ≠ read_retry_delays g₂ 5 :=
  fun ⟨_, _, hne⟩ => hne rfl

/-! ## Sync directory validation -/

/-- C9: validation rejects the empty path, rejects a path whose
pre-canonicalization metadata is a symlink, and re-checks the canonicalized
path; in the rejection cases no directory is created and `set_sync_path`
writes no config file. -/
theorem sync_dir_validation (fs : FsView) (p c : String) (m₁ m₂ : FileMeta) :
    validate_sync_dir fs "" = (.error "Sync path cannot be empty", false)
    ∧ (¬p = "" → fs.pathExists p = true → fs.symlinkMeta p = .ok m₁ →
        m₁.isSymlink = true →
        validate_sync_dir fs p = (.error "Sync path must not be a symlink", false)
        ∧ set_sync_path fs p = (.error "Sync path must not be a symlink", false, false))
    ∧ (¬p = "" → fs.pathExists p = true → fs.symlinkMeta p = .ok m₁ →
        m₁.isSymlink = false → m₁.isDir = true → fs.canonicalize p = .ok c →
        fs.symlinkMeta c = .ok m₂ → m₂.isSymlink = true →
        validate_sync_dir fs p = (.error "Sync path must not be a symlink", false)
        ∧ set_sync_path fs p = (.error "Sync path must not be a symlink", false, false)) := by
  refine ⟨?_, ?_, ?_⟩
  · simp [validate_sync_dir]
  · intro h0 h1 h2 h3
    have hv : validate_sync_dir fs p = (.error "Sync path must not be a symlink", false) := by
      simp [validate_sync_dir, h0, h1, h2, h3]
    exact ⟨hv, by simp [set_sync_path, hv]⟩
  · intro h0 h1 h2 h3 h4 h5 h6 h7
    have hv : validate_sync_dir fs p = (.error "Sync path must not be a symlink", false) := by
      simp [validate_sync_dir, validate_canonical, h0, h1, h2, h3, h4, h5, h6, h7,
            Bind.bind, Except.bind]
    exact ⟨hv, by simp [set_sync_path, hv]⟩

/-- C9 witness: a symlinked sync directory, a post-canonicalization symlink,
and the empty path are all rejected with nothing created or written. -/
theorem sync_dir_validation_witness :
    validate_sync_dir symlinkFs "/sync" = (.error "Sync path must not be a symlink", false)
    ∧ set_sync_path symlinkFs "/sync"
        = (.error "Sync path must not be a symlink", false, false)
    ∧ validate_sync_dir lateSymlinkFs "/dir"
        = (.error "Sync path must not be a symlink", false)
    ∧ validate_sync_dir symlinkFs "" = (.error "Sync path cannot be empty", false) := by
  refine ⟨?_, ?_, ?_, ?_⟩
  · exact ((sync_dir_validation symlinkFs "/sync" "/real" ⟨true, true⟩ ⟨false, true⟩).2.1
      (by decide) rfl rfl rfl).1
  · exact ((sync_dir_validation symlinkFs "/sync" "/real" ⟨true, true⟩ ⟨false, true⟩).2.1
      (by decide) rfl rfl rfl).2
  · exact ((sync_dir_validation lateSymlinkFs "/dir" "/canon" ⟨false, true⟩
      ⟨true, true⟩).2.2 (by decide) rfl rfl rfl rfl rfl rfl rfl).1
  · exact (sync_dir_validation symlinkFs "x" "x" ⟨false, false⟩ ⟨false, false⟩).1

end Mindwtr
